
import Mathlib

/-!
Verification of the CV-certificate engine of `btok_cvc.c` (STB 34.101.79,
project bee2).  Bytes are modelled as natural numbers, byte buffers as
`List Nat`.  The DER primitives (`der.h`) and the bign/hash primitives are
collaborators that are not part of the provided sources; they are modelled
from the specification, as marked in the individual doc comments.  The
functions of `btok_cvc.c` itself are translated line by line.
-/

/-- Error codes (`err_t`) restricted to the kinds the CVC engine produces. -/
inductive Err where
  | ok
  | badInput
  | badName
  | badDate
  | badFormat
  | badPubkey
  | badKeypair
  | badSig
deriving DecidableEq, Repr

/-- Result of a C function that returns an `err_t` and fills an out
parameter on success. -/
inductive BtokRes (A : Type) where
  | ok (val : A)
  | err (code : Err)
deriving DecidableEq, Repr

/-- Big-endian base-256 digits, fuel-driven so that the kernel can
evaluate it.  `natBytesBEAux f n` is the encoding of `n` provided
`n ≤ f`. -/
def natBytesBEAux : Nat → Nat → List Nat
  | 0, _ => []
  | f + 1, n => if n = 0 then [] else natBytesBEAux f (n / 256) ++ [n % 256]

/-- Minimal big-endian base-256 representation of a natural number
(empty for 0). -/
def natBytesBE (n : Nat) : List Nat :=
  natBytesBEAux n n

/-- Recombine big-endian base-256 digits into a natural number. -/
def bytesFromBE (l : List Nat) : Nat :=
  l.foldl (fun a b => 256 * a + b) 0

/-- Modelled from the spec: DER definite-length octets (missing from
`src/`: `der.c` of bee2).  Minimal form: one octet below 128, otherwise
`0x80 + k` followed by the `k` big-endian value octets. -/
def derLenEnc (n : Nat) : List Nat :=
  if n < 128 then [n] else (128 + (natBytesBE n).length) :: natBytesBE n

/-- Modelled from the spec: DER definite-length decoder (missing from
`src/`: `der.c` of bee2).  Rejects the indefinite form and non-minimal
encodings; returns the length and the remaining octets. -/
def derLenDec : List Nat → Option (Nat × List Nat)
  | [] => none
  | b :: r =>
    if b < 128 then some (b, r)
    else
      let k := b - 128
      if k = 0 then none
      else if r.length < k then none
      else
        match r.take k with
        | [] => none
        | d :: _ =>
          if d = 0 then none
          else
            let n := bytesFromBE (r.take k)
            if n < 128 then none else some (n, r.drop k)

/-- Modelled from the spec: the identifier octets of a (one- or two-octet)
application tag, written big-endian, as `der.c` of bee2 serializes the
`u32` tag values such as `0x7F4E`. -/
def derTagEnc (t : Nat) : List Nat :=
  natBytesBE t

/-- Modelled from the spec: a whole DER element `tag ++ len ++ value`. -/
def derElemEnc (tag : Nat) (val : List Nat) : List Nat :=
  derTagEnc tag ++ derLenEnc val.length ++ val

/-- Modelled from the spec: decode one DER element with the expected tag;
returns the value octets and the rest of the input. -/
def derElemDec (tag : Nat) (s : List Nat) : Option (List Nat × List Nat) :=
  let tg := derTagEnc tag
  if s.take tg.length = tg then
    match derLenDec (s.drop tg.length) with
    | some (n, r) => if n ≤ r.length then some (r.take n, r.drop n) else none
    | none => none
  else none

/-- Modelled from the spec: `derStartsWith` — does the input begin with the
identifier octets of the given tag? -/
def derStartsWith (tag : Nat) (s : List Nat) : Bool :=
  decide (s.take (derTagEnc tag).length = derTagEnc tag)

/-- Modelled from the spec: the printable-character set of the restricted
ASN.1 PrintableString alphabet (missing from `src/`: `strIsPrintable` of
bee2's `str.c`): letters, digits, space and ' ( ) + , - . / : = ?. -/
def charIsPrintable (c : Nat) : Bool :=
  decide (65 ≤ c ∧ c ≤ 90) || decide (97 ≤ c ∧ c ≤ 122) ||
  decide (48 ≤ c ∧ c ≤ 57) || decide (c = 32) || decide (c = 39) ||
  decide (40 ≤ c ∧ c ≤ 41) || decide (43 ≤ c ∧ c ≤ 47) ||
  decide (c = 58) || decide (c = 61) || decide (c = 63)

/-- Modelled from the spec: `memIsZero` of bee2's `mem.c` (missing from
`src/`) — all octets of the buffer are zero. -/
def memIsZero (l : List Nat) : Bool :=
  l.all (fun x => x == 0)

/-- Modelled from the spec: `memCmp` of bee2's `mem.c` (missing from
`src/`) — byte-wise lexicographic comparison, as the spec describes the
6-octet date comparison. -/
def memCmp : List Nat → List Nat → Ordering
  | [], [] => Ordering.eq
  | [], _ :: _ => Ordering.lt
  | _ :: _, [] => Ordering.gt
  | a :: as, b :: bs =>
    if a < b then Ordering.lt
    else if b < a then Ordering.gt
    else memCmp as bs

/-- Modelled from the spec: `derTPSTREnc` — PrintableString with an
explicit tag; the value octets are the characters. -/
def derTPSTREnc (tag : Nat) (s : List Nat) : List Nat :=
  derElemEnc tag s

/-- Modelled from the spec: `derTPSTRDec` — decode a PrintableString with
the expected tag, requiring every character to be printable. -/
def derTPSTRDec (tag : Nat) (s : List Nat) : Option (List Nat × List Nat) :=
  match derElemDec tag s with
  | some (c, r) => if c.all charIsPrintable then some (c, r) else none
  | none => none

/-- Modelled from the spec: `derTOCTEnc` — OCTET STRING with an explicit
tag. -/
def derTOCTEnc (tag : Nat) (s : List Nat) : List Nat :=
  derElemEnc tag s

/-- Modelled from the spec: `derTOCTDec2` — decode an OCTET STRING with
the expected tag and an exact expected length. -/
def derTOCTDec2 (tag len : Nat) (s : List Nat) : Option (List Nat × List Nat) :=
  match derElemDec tag s with
  | some (c, r) => if c.length = len then some (c, r) else none
  | none => none

/-- Modelled from the spec: `derDec3` — does one DER element with the
given tag and exactly the given value length start here?  (Used for the
trial decoding of the signature.) -/
def derDec3 (tag len : Nat) (s : List Nat) : Bool :=
  match derElemDec tag s with
  | some (c, _) => decide (c.length = len)
  | none => false

/-- Modelled from the spec: the value octets of a tagged SIZE (small
non-negative integer), minimally encoded, `0` as a single zero octet. -/
def derSIZEContent (v : Nat) : List Nat :=
  if v = 0 then [0] else natBytesBE v

/-- Modelled from the spec: `derTSIZEEnc` — tagged SIZE element. -/
def derTSIZEEnc (tag v : Nat) : List Nat :=
  derElemEnc tag (derSIZEContent v)

/-- Modelled from the spec: `derTSIZEDec2` — decode a tagged SIZE element
and require its value to equal the expected one. -/
def derTSIZEDec2 (tag v : Nat) (s : List Nat) : Option (List Nat) :=
  match derElemDec tag s with
  | some (c, r) => if c = derSIZEContent v then some r else none
  | none => none

/-- Modelled from the spec: base-128 continuation groups of one OID arc
(all groups but the last carry bit 0x80), fuel-driven. -/
def derArcAux : Nat → Nat → List Nat
  | 0, _ => []
  | f + 1, m => if m = 0 then [] else derArcAux f (m / 128) ++ [m % 128 + 128]

/-- Modelled from the spec: the octets of one OID arc. -/
def derArcEnc (n : Nat) : List Nat :=
  derArcAux n (n / 128) ++ [n % 128]

/-- Modelled from the spec: the value octets of an OBJECT IDENTIFIER
(first two arcs packed as `40*a+b`). -/
def derOIDContent (arcs : List Nat) : List Nat :=
  match arcs with
  | a :: b :: r => (40 * a + b) :: (r.map derArcEnc).flatten
  | _ => []

/-- Modelled from the spec: `derOIDEnc` — OBJECT IDENTIFIER element
(universal tag 0x06). -/
def derOIDEnc (arcs : List Nat) : List Nat :=
  derElemEnc 6 (derOIDContent arcs)

/-- Modelled from the spec: `derOIDDec2` — decode an OBJECT IDENTIFIER and
require it to equal the expected one. -/
def derOIDDec2 (arcs : List Nat) (s : List Nat) : Option (List Nat) :=
  match derElemDec 6 s with
  | some (c, r) => if c = derOIDContent arcs then some r else none
  | none => none

/-- Modelled from the spec: `derBITEnc` — BIT STRING element (universal
tag 0x03): the unused-bit count octet followed by the value octets. -/
def derBITEnc (bits : List Nat) (bitLen : Nat) : List Nat :=
  derElemEnc 3 (((8 - bitLen % 8) % 8) :: bits)

/-- Modelled from the spec: `derBITDec` — decode a BIT STRING, returning
the bit length and the value octets. -/
def derBITDec (s : List Nat) : Option ((Nat × List Nat) × List Nat) :=
  match derElemDec 3 s with
  | some ([], _) => none
  | some (u :: data, r) => if u ≤ 7 then some ((8 * data.length - u, data), r) else none
  | none => none

/-!  Cryptographic collaborators.  These functions belong to bee2's bign
and hash modules, which are not part of the provided sources; they are
modelled from the specification as an abstract deterministic signature
scheme: public keys are derived deterministically and injectively from
private keys, signatures are a deterministic function of body and private
key with the length contract `sig_len = priv_len + priv_len/2`, and
verification recomputes the signature from the public key's preimage. -/

/-- Modelled from the spec: `bignCalcPubkey` — deterministic derivation of
a `2·priv_len`-octet public key from the private key. -/
def bignCalcPubkey (priv : List Nat) : List Nat :=
  priv ++ priv

/-- Modelled from the spec: `bignValPubkey` — group-membership validation;
in this model exactly the derived keys (both halves equal) are valid. -/
def bignValPubkey (pub : List Nat) : Err :=
  if pub.take (pub.length / 2) = pub.drop (pub.length / 2) then Err.ok
  else Err.badPubkey

/-- Modelled from the spec: the deterministic signature value over the
body octets under the private key (the RNG is unavailable, so the
underlying scheme is deterministic); its length is
`priv_len + priv_len/2`. -/
def bignSignModel (body priv : List Nat) : List Nat :=
  let h := (body.foldl (fun a b => (a * 131 + b) % 251) 7 +
            priv.foldl (fun a b => (a * 137 + b) % 251) 11) % 251
  (List.range (priv.length + priv.length / 2)).map (fun i => (h + i) % 256)

/-- OID bign-pubkey, source string "1.2.112.0.2.0.34.101.45.2.1". -/
def oid_bign_pubkey : List Nat := [1, 2, 112, 0, 2, 0, 34, 101, 45, 2, 1]

/-- OID id-eIdAccess, source string "1.2.112.0.2.0.34.101.79.6.1". -/
def oid_eid_access : List Nat := [1, 2, 112, 0, 2, 0, 34, 101, 79, 6, 1]

/-- OID id-eSignAccess, source string "1.2.112.0.2.0.34.101.79.6.2". -/
def oid_esign_access : List Nat := [1, 2, 112, 0, 2, 0, 34, 101, 79, 6, 2]

/-- The CVC record `btok_cvc_t`.  Buffers hold exactly their meaningful
octets: `authority`/`holder` are the characters of the NUL-terminated
strings, `pubkey` the `pubkey_len` key octets, `sig` the `sig_len`
signature octets; `hat_eid`, `hat_esign`, `cfrom`, `cuntil` are the fixed
5-, 2-, 6- and 6-octet arrays (`from`/`until` are renamed because `from`
is reserved in Lean). -/
structure BtokCVC where
  authority : List Nat
  holder : List Nat
  pubkey : List Nat
  pubkey_len : Nat
  hat_eid : List Nat
  hat_esign : List Nat
  cfrom : List Nat
  cuntil : List Nat
  sig : List Nat
  sig_len : Nat
deriving DecidableEq, Repr

/-- The size constraints that the C type `btok_cvc_t` imposes on the
buffers (fixed-size arrays, key buffer holding `pubkey_len` octets). -/
def BtokCVC.WF (c : BtokCVC) : Prop :=
  c.pubkey.length = c.pubkey_len ∧ c.hat_eid.length = 5 ∧
  c.hat_esign.length = 2 ∧ c.cfrom.length = 6 ∧ c.cuntil.length = 6

instance (c : BtokCVC) : Decidable c.WF := by
  unfold BtokCVC.WF; infer_instance

/-- `btokPubkeyCalc`: derive the public key, checking the private-key
length (source lines 42–55). -/
def btokPubkeyCalc (priv : List Nat) : BtokRes (List Nat) :=
  if ¬(priv.length = 32 ∨ priv.length = 48 ∨ priv.length = 64) then .err .badInput
  else .ok (bignCalcPubkey priv)

/-- `btokPubkeyVal`: validate a public key of `pubkey_len` octets, checking
the length first (source lines 57–69). -/
def btokPubkeyVal (pubkey : List Nat) (pubkey_len : Nat) : Err :=
  if ¬(pubkey_len = 64 ∨ pubkey_len = 96 ∨ pubkey_len = 128) then .badInput
  else bignValPubkey (pubkey.take pubkey_len)

/-- `btokKeypairVal`: validate a private/public key pair (source lines
71–86); in the model a pair is consistent iff the public key equals the
derived one. -/
def btokKeypairVal (priv : List Nat) (pub : List Nat) (pub_len : Nat) : Err :=
  if ¬(priv.length = 32 ∨ priv.length = 48 ∨ priv.length = 64) then .badInput
  else if pub_len ≠ 2 * priv.length then .badKeypair
  else if bignCalcPubkey priv = pub.take pub_len then .ok else .badKeypair

/-- `btokSign` (source lines 88–149): hash and sign the buffer; modelled
by the deterministic abstract signature. -/
def btokSign (buf : List Nat) (priv : List Nat) : List Nat :=
  bignSignModel buf priv

/-- `btokVerify` (source lines 151–207): validate the public key, then
verify the signature over the buffer; in the model verification
recomputes the deterministic signature from the first half of the
(derived-form) public key. -/
def btokVerify (buf : List Nat) (sig : List Nat) (pub : List Nat) : Err :=
  match bignValPubkey pub with
  | .ok => if sig = bignSignModel buf (pub.take (pub.length / 2)) then .ok else .badSig
  | e => e

/-- `btokCVCDateIsValid` (source lines 215–233). -/
def btokCVCDateIsValid (date : List Nat) : Bool :=
  decide (date.length = 6) &&
  decide (date.getD 0 0 ≤ 9) && decide (date.getD 1 0 ≤ 9) &&
  decide (date.getD 2 0 ≤ 9) && decide (date.getD 3 0 ≤ 9) &&
  decide (date.getD 4 0 ≤ 9) && decide (date.getD 5 0 ≤ 9) &&
  (let y := 10 * date.getD 0 0 + date.getD 1 0
   let m := 10 * date.getD 2 0 + date.getD 3 0
   let d := 10 * date.getD 4 0 + date.getD 5 0
   decide (19 ≤ y) && decide (1 ≤ m) && decide (m ≤ 12) &&
   decide (1 ≤ d) && decide (d ≤ 31) &&
   !(decide (d = 31) && (decide (m = 4) || decide (m = 6) ||
       decide (m = 9) || decide (m = 11))) &&
   !(decide (m = 2) && (decide (29 < d) ||
       decide (d = 29) && decide (y % 4 ≠ 0))))

/-- `btokCVCDateLeq` (source lines 235–241), without its assertions:
`memCmp(left, right, 6) <= 0`. -/
def btokCVCDateLeq (left right : List Nat) : Bool :=
  match memCmp left right with
  | Ordering.gt => false
  | _ => true

/-- `btokCVCNameIsValid` (source lines 243–248). -/
def btokCVCNameIsValid (name : List Nat) : Bool :=
  decide (8 ≤ name.length) && decide (name.length ≤ 12) &&
  name.all charIsPrintable

/-- `btokCVCInfoSeemsValid` (source lines 250–260). -/
def btokCVCInfoSeemsValid (cvc : BtokCVC) : Bool :=
  btokCVCNameIsValid cvc.authority &&
  btokCVCNameIsValid cvc.holder &&
  btokCVCDateIsValid cvc.cfrom &&
  btokCVCDateIsValid cvc.cuntil &&
  btokCVCDateLeq cvc.cfrom cvc.cuntil &&
  (decide (cvc.pubkey_len = 64) || decide (cvc.pubkey_len = 96) ||
   decide (cvc.pubkey_len = 128))

/-- `btokCVCCheck` (source lines 262–272). -/
def btokCVCCheck (cvc : BtokCVC) : Err :=
  if ¬(btokCVCNameIsValid cvc.authority && btokCVCNameIsValid cvc.holder) then
    .badName
  else if ¬(btokCVCDateIsValid cvc.cfrom && btokCVCDateIsValid cvc.cuntil &&
      btokCVCDateLeq cvc.cfrom cvc.cuntil) then
    .badDate
  else btokPubkeyVal cvc.pubkey cvc.pubkey_len

/-- `btokCVCCheck2` (source lines 274–288). -/
def btokCVCCheck2 (cvc cvca : BtokCVC) : Err :=
  match btokCVCCheck cvc with
  | .ok =>
    if cvc.authority ≠ cvca.holder then .badName
    else if ¬(btokCVCDateIsValid cvca.cfrom && btokCVCDateIsValid cvca.cuntil &&
        btokCVCDateLeq cvca.cfrom cvc.cfrom &&
        btokCVCDateLeq cvc.cfrom cvca.cuntil) then
      .badDate
    else .ok
  | e => e

/-- `btokCVCBodyEnc` (source lines 329–376): DER-encode the certificate
body, emitting the CertHAT block iff `hat_eid` is not all-zero and the
CVExt block iff `hat_esign` is not all-zero. -/
def btokCVCBodyEnc (cvc : BtokCVC) : List Nat :=
  derElemEnc 0x7F4E (
    derTSIZEEnc 0x5F29 0 ++
    derTPSTREnc 0x42 cvc.authority ++
    derElemEnc 0x7F49 (derOIDEnc oid_bign_pubkey ++
      derBITEnc cvc.pubkey (8 * cvc.pubkey_len)) ++
    derTPSTREnc 0x5F20 cvc.holder ++
    (if memIsZero cvc.hat_eid then []
     else derElemEnc 0x7F4C (derOIDEnc oid_eid_access ++
       derTOCTEnc 0x04 cvc.hat_eid)) ++
    derTOCTEnc 0x5F25 cvc.cfrom ++
    derTOCTEnc 0x5F24 cvc.cuntil ++
    (if memIsZero cvc.hat_esign then []
     else derElemEnc 0x65 (derElemEnc 0x73 (derOIDEnc oid_esign_access ++
       derTOCTEnc 0x04 cvc.hat_esign))))

/-- The field-by-field decoding of the body contents (the part of
`btokCVCBodyDec` between the outer SEQ start and stop, source lines
392–435); the record starts out zeroed (`memSetZero`). -/
def btokCVCBodyDecFields (c0 : List Nat) : Option BtokCVC :=
  match derTSIZEDec2 0x5F29 0 c0 with
  | none => none
  | some c1 =>
    match derTPSTRDec 0x42 c1 with
    | none => none
    | some (auth, c2) =>
      if auth.length < 8 ∨ 12 < auth.length then none
      else
        match derElemDec 0x7F49 c2 with
        | none => none
        | some (pkc, c3) =>
          match derOIDDec2 oid_bign_pubkey pkc with
          | none => none
          | some pkc1 =>
            match derBITDec pkc1 with
            | none => none
            | some ((bl, data), pkc2) =>
              if ¬(bl = 512 ∨ bl = 768 ∨ bl = 1024) then none
              else if pkc2 ≠ [] then none
              else
                match derTPSTRDec 0x5F20 c3 with
                | none => none
                | some (hold, c4) =>
                  if hold.length < 8 ∨ 12 < hold.length then none
                  else
                    match
                      (if derStartsWith 0x7F4C c4 then
                        match derElemDec 0x7F4C c4 with
                        | none => none
                        | some (hc, c5) =>
                          match derOIDDec2 oid_eid_access hc with
                          | none => none
                          | some hc1 =>
                            match derTOCTDec2 0x04 5 hc1 with
                            | none => none
                            | some (eid, hc2) =>
                              if hc2 ≠ [] then none else some (eid, c5)
                      else some (List.replicate 5 0, c4)) with
                    | none => none
                    | some (eid, c5) =>
                      match derTOCTDec2 0x5F25 6 c5 with
                      | none => none
                      | some (fr, c6) =>
                        match derTOCTDec2 0x5F24 6 c6 with
                        | none => none
                        | some (un, c7) =>
                          match
                            (if derStartsWith 0x65 c7 then
                              match derElemDec 0x65 c7 with
                              | none => none
                              | some (ec, c8) =>
                                match derElemDec 0x73 ec with
                                | none => none
                                | some (dc, ec2) =>
                                  match derOIDDec2 oid_esign_access dc with
                                  | none => none
                                  | some dc1 =>
                                    match derTOCTDec2 0x04 2 dc1 with
                                    | none => none
                                    | some (es, dc2) =>
                                      if dc2 ≠ [] then none
                                      else if ec2 ≠ [] then none
                                      else some (es, c8)
                            else some (List.replicate 2 0, c7)) with
                          | none => none
                          | some (es, c8) =>
                            if c8 ≠ [] then none
                            else some {
                              authority := auth
                              holder := hold
                              pubkey := data
                              pubkey_len := bl / 8
                              hat_eid := eid
                              hat_esign := es
                              cfrom := fr
                              cuntil := un
                              sig := []
                              sig_len := 0 }

/-- `btokCVCBodyDec` (source lines 378–438): decode the body element and
return the decoded record together with the exact number of octets
consumed. -/
def btokCVCBodyDec (s : List Nat) : Option (BtokCVC × Nat) :=
  match derElemDec 0x7F4E s with
  | none => none
  | some (content, rest) =>
    match btokCVCBodyDecFields content with
    | none => none
    | some cvc => some (cvc, s.length - rest.length)

/-- `btokCVCWrap` (source lines 450–501).  `withCert` plays the role of a
non-null output buffer: with it the body is signed and the certificate
octets are produced, without it (dry run) the signer is not invoked and
only the length is computed.  Returns the mutated record, the certificate
octets (empty in a dry run) and the reported length `*cert_len`. -/
def btokCVCWrap (withCert : Bool) (cvc : BtokCVC) (privkey : List Nat) :
    BtokRes (BtokCVC × List Nat × Nat) :=
  if ¬(privkey.length = 32 ∨ privkey.length = 48 ∨ privkey.length = 64) then
    .err .badInput
  else
    match
      (if cvc.pubkey_len = 0 then
        match btokPubkeyCalc privkey with
        | .ok pk => .ok { cvc with pubkey := pk, pubkey_len := 2 * privkey.length }
        | .err e => .err e
      else .ok cvc : BtokRes BtokCVC) with
    | .err e => .err e
    | .ok cvc1 =>
      match btokCVCCheck cvc1 with
      | .ok =>
        let body := btokCVCBodyEnc cvc1
        let slen := privkey.length + privkey.length / 2
        let sig1 := if withCert then btokSign body privkey else cvc1.sig
        let cvc2 := { cvc1 with sig := sig1, sig_len := slen }
        let sigElemLen := (derTagEnc 0x5F37).length + (derLenEnc slen).length + slen
        let inner := body.length + sigElemLen
        let count := (derTagEnc 0x7F21).length + (derLenEnc inner).length + inner
        let cert := if withCert then
            derElemEnc 0x7F21 (body ++ derTOCTEnc 0x5F37 sig1)
          else []
        .ok (cvc2, cert, count)
      | e => .err e

/-- `btokCVCUnwrap` (source lines 503–562).  `pubkey = []` is the
length-inference mode (`pubkey_len == 0`): the signature length is found
by trial decoding with 48, 72, 96. -/
def btokCVCUnwrap (cert : List Nat) (pubkey : List Nat) : BtokRes BtokCVC :=
  if ¬(pubkey.length = 0 ∨ pubkey.length = 64 ∨ pubkey.length = 96 ∨
      pubkey.length = 128) then
    .err .badInput
  else
    match derElemDec 0x7F21 cert with
    | none => .err .badFormat
    | some (content, _) =>
      match btokCVCBodyDec content with
      | none => .err .badFormat
      | some (cvc1, t) =>
        let body := content.take t
        let rest := content.drop t
        match
          (if pubkey.length = 0 then
            if derDec3 0x5F37 48 rest then some 48
            else if derDec3 0x5F37 72 rest then some 72
            else if derDec3 0x5F37 96 rest then some 96
            else none
          else some (pubkey.length - pubkey.length / 4)) with
        | none => .err .badFormat
        | some slen =>
          match derTOCTDec2 0x5F37 slen rest with
          | none => .err .badFormat
          | some (sigv, rest2) =>
            let cvc2 := { cvc1 with sig := sigv, sig_len := slen }
            match (if pubkey.length ≠ 0 then btokVerify body sigv pubkey
                   else .ok : Err) with
            | .ok =>
              if rest2 ≠ [] then .err .badFormat
              else
                match btokCVCCheck cvc2 with
                | .ok => .ok cvc2
                | e => .err e
            | e => .err e

/-- `btokCVCIss` (source lines 570–592): unwrap the issuer certificate
without a verifier key, validate the issuer keypair, cross-check the
child, then wrap with the issuer private key. -/
def btokCVCIss (withCert : Bool) (cvc : BtokCVC) (certa : List Nat)
    (privkeya : List Nat) : BtokRes (BtokCVC × List Nat × Nat) :=
  match btokCVCUnwrap certa [] with
  | .err e => .err e
  | .ok cvca =>
    match btokKeypairVal privkeya cvca.pubkey cvca.pubkey_len with
    | .ok =>
      match btokCVCCheck2 cvc cvca with
      | .ok => btokCVCWrap withCert cvc privkeya
      | e => .err e
    | e => .err e

/-!  Assertion-instrumented clones.  `ASSERT` in the source becomes an
`Option`: `none` means an assertion fired.  `btokCVCDateLeqA` carries the
two `ASSERT(btokCVCDateIsValid(...))` of `btokCVCDateLeq`;
`btokCVCBodyEncA` carries `ASSERT(btokCVCInfoSeemsValid(cvc))` of
`btokCVCBodyEnc`; the callers propagate `none`. -/

/-- `btokCVCDateLeq` with its two assertions made explicit. -/
def btokCVCDateLeqA (left right : List Nat) : Option Bool :=
  if btokCVCDateIsValid left && btokCVCDateIsValid right then
    some (btokCVCDateLeq left right)
  else none

/-- `btokCVCInfoSeemsValid` with the assertions of its `btokCVCDateLeq`
call made explicit; the `&&` chain short-circuits exactly as in C. -/
def btokCVCInfoSeemsValidA (cvc : BtokCVC) : Option Bool :=
  if ¬btokCVCNameIsValid cvc.authority then some false
  else if ¬btokCVCNameIsValid cvc.holder then some false
  else if ¬btokCVCDateIsValid cvc.cfrom then some false
  else if ¬btokCVCDateIsValid cvc.cuntil then some false
  else
    match btokCVCDateLeqA cvc.cfrom cvc.cuntil with
    | none => none
    | some b =>
      some (b && (decide (cvc.pubkey_len = 64) || decide (cvc.pubkey_len = 96) ||
        decide (cvc.pubkey_len = 128)))

/-- `btokCVCCheck` with the assertions of its `btokCVCDateLeq` call made
explicit; the `||` conditions short-circuit exactly as in C. -/
def btokCVCCheckA (cvc : BtokCVC) : Option Err :=
  if ¬(btokCVCNameIsValid cvc.authority && btokCVCNameIsValid cvc.holder) then
    some .badName
  else if ¬btokCVCDateIsValid cvc.cfrom then some .badDate
  else if ¬btokCVCDateIsValid cvc.cuntil then some .badDate
  else
    match btokCVCDateLeqA cvc.cfrom cvc.cuntil with
    | none => none
    | some b =>
      if ¬b then some .badDate
      else some (btokPubkeyVal cvc.pubkey cvc.pubkey_len)

/-- `btokCVCCheck2` with assertions made explicit. -/
def btokCVCCheck2A (cvc cvca : BtokCVC) : Option Err :=
  match btokCVCCheckA cvc with
  | none => none
  | some e =>
    if e ≠ .ok then some e
    else if cvc.authority ≠ cvca.holder then some .badName
    else if ¬btokCVCDateIsValid cvca.cfrom then some .badDate
    else if ¬btokCVCDateIsValid cvca.cuntil then some .badDate
    else
      match btokCVCDateLeqA cvca.cfrom cvc.cfrom with
      | none => none
      | some b1 =>
        if ¬b1 then some .badDate
        else
          match btokCVCDateLeqA cvc.cfrom cvca.cuntil with
          | none => none
          | some b2 => if ¬b2 then some .badDate else some .ok

/-- `btokCVCBodyEnc` with its `ASSERT(btokCVCInfoSeemsValid(cvc))` made
explicit (the evaluation of the predicate itself carries the inner
date-comparison assertions). -/
def btokCVCBodyEncA (cvc : BtokCVC) : Option (List Nat) :=
  match btokCVCInfoSeemsValidA cvc with
  | none => none
  | some false => none
  | some true => some (btokCVCBodyEnc cvc)

/-- `btokCVCWrap` with the assertion of the body encoder made explicit on
the encoding path. -/
def btokCVCWrapA (withCert : Bool) (cvc : BtokCVC) (privkey : List Nat) :
    Option (BtokRes (BtokCVC × List Nat × Nat)) :=
  if ¬(privkey.length = 32 ∨ privkey.length = 48 ∨ privkey.length = 64) then
    some (.err .badInput)
  else
    match
      (if cvc.pubkey_len = 0 then
        match btokPubkeyCalc privkey with
        | .ok pk => .ok { cvc with pubkey := pk, pubkey_len := 2 * privkey.length }
        | .err e => .err e
      else .ok cvc : BtokRes BtokCVC) with
    | .err e => some (.err e)
    | .ok cvc1 =>
      match btokCVCCheck cvc1 with
      | .ok =>
        match btokCVCBodyEncA cvc1 with
        | none => none
        | some body =>
          let slen := privkey.length + privkey.length / 2
          let sig1 := if withCert then btokSign body privkey else cvc1.sig
          let cvc2 := { cvc1 with sig := sig1, sig_len := slen }
          let sigElemLen := (derTagEnc 0x5F37).length + (derLenEnc slen).length + slen
          let inner := body.length + sigElemLen
          let count := (derTagEnc 0x7F21).length + (derLenEnc inner).length + inner
          let cert := if withCert then
              derElemEnc 0x7F21 (body ++ derTOCTEnc 0x5F37 sig1)
            else []
          some (.ok (cvc2, cert, count))
      | e => some (.err e)

/-- Spec-side wire builder: the inner contents of a `CertificateBody`
following the schema of the spec (§4.3) literally — version SIZE,
authority, PubKey SEQ (OID + BIT STRING), holder, optional CertHAT,
from, until, optional CVExt.  Used to state what the source codec must
emit and accept; not derived from the source. -/
def specBodyInner (ver auth pkBits holder : List Nat) (eid : Option (List Nat))
    (dfrom duntil : List Nat) (esign : Option (List Nat)) : List Nat :=
  derElemEnc 0x5F29 ver ++
  derElemEnc 0x42 auth ++
  derElemEnc 0x7F49 (derOIDEnc oid_bign_pubkey ++ derElemEnc 3 pkBits) ++
  derElemEnc 0x5F20 holder ++
  (match eid with
   | none => []
   | some e => derElemEnc 0x7F4C (derOIDEnc oid_eid_access ++ derElemEnc 0x04 e)) ++
  derElemEnc 0x5F25 dfrom ++
  derElemEnc 0x5F24 duntil ++
  (match esign with
   | none => []
   | some e => derElemEnc 0x65 (derElemEnc 0x73 (derOIDEnc oid_esign_access ++
       derElemEnc 0x04 e)))

/-- Spec-side wire builder: a whole `CertificateBody` element (tag
0x7F4E) following the spec schema. -/
def specBodyWire (ver auth pkBits holder : List Nat) (eid : Option (List Nat))
    (dfrom duntil : List Nat) (esign : Option (List Nat)) : List Nat :=
  derElemEnc 0x7F4E (specBodyInner ver auth pkBits holder eid dfrom duntil esign)

/-- Claim-side date predicate, written from the words of the claim: six
digit octets, two-digit year at least 19, month 1..12, day 1..31, no day
31 in months 4, 6, 9, 11, February at most 29 with 29 only in years
divisible by 4. -/
def specDateOk (d0 d1 d2 d3 d4 d5 : Nat) : Prop :=
  d0 ≤ 9 ∧ d1 ≤ 9 ∧ d2 ≤ 9 ∧ d3 ≤ 9 ∧ d4 ≤ 9 ∧ d5 ≤ 9 ∧
  19 ≤ 10 * d0 + d1 ∧
  1 ≤ 10 * d2 + d3 ∧ 10 * d2 + d3 ≤ 12 ∧
  1 ≤ 10 * d4 + d5 ∧ 10 * d4 + d5 ≤ 31 ∧
  ((10 * d2 + d3 = 4 ∨ 10 * d2 + d3 = 6 ∨ 10 * d2 + d3 = 9 ∨
      10 * d2 + d3 = 11) → 10 * d4 + d5 ≠ 31) ∧
  (10 * d2 + d3 = 2 →
    (10 * d4 + d5 ≤ 28 ∨ (10 * d4 + d5 = 29 ∧ (10 * d0 + d1) % 4 = 0)))

/-- Claim-side byte-wise lexicographic order on octet strings, written
independently of the source's `memCmp`. -/
def specLexLe : List Nat → List Nat → Bool
  | [], [] => true
  | [], _ :: _ => true
  | _ :: _, [] => false
  | a :: as, b :: bs => decide (a < b) || (decide (a = b) && specLexLe as bs)

/-- Claim-side description of the trial decoding of the signature octet
string: the first of the lengths 48, 72, 96 whose element decodes. -/
def specFirstTrial (s : List Nat) : Option Nat :=
  if derDec3 0x5F37 48 s then some 48
  else if derDec3 0x5F37 72 s then some 72
  else if derDec3 0x5F37 96 s then some 96
  else none

/-- The public-key materialization step of `btokCVCWrap` (source lines
463–471): fill in the derived key when `pubkey_len` is zero. -/
def btokCVCPub (cvc : BtokCVC) (priv : List Nat) : BtokCVC :=
  if cvc.pubkey_len = 0 then
    { cvc with pubkey := bignCalcPubkey priv, pubkey_len := 2 * priv.length }
  else cvc

/-- The length `*cert_len` that `btokCVCWrap` reports, accumulated from
the step lengths as the source does. -/
def wrapCount (cvc : BtokCVC) (priv : List Nat) : Nat :=
  (derTagEnc 0x7F21).length +
    (derLenEnc ((btokCVCBodyEnc (btokCVCPub cvc priv)).length +
      ((derTagEnc 0x5F37).length +
       (derLenEnc (priv.length + priv.length / 2)).length +
       (priv.length + priv.length / 2)))).length +
    ((btokCVCBodyEnc (btokCVCPub cvc priv)).length +
      ((derTagEnc 0x5F37).length +
       (derLenEnc (priv.length + priv.length / 2)).length +
       (priv.length + priv.length / 2)))

/-- Example private key used by the concrete instances. -/
def exPriv : List Nat := List.replicate 32 7

/-- Example authority name ("AAAAAAAA"). -/
def exName : List Nat := List.replicate 8 65

/-- Example holder name ("HHHHHHHH"). -/
def exName2 : List Nat := List.replicate 8 72

/-- Example CVC record that passes `btokCVCCheck`; its public key is the
one derived from `exPriv`. -/
def exCVC : BtokCVC where
  authority := exName
  holder := exName2
  pubkey := List.replicate 64 7
  pubkey_len := 64
  hat_eid := List.replicate 5 0
  hat_esign := List.replicate 2 0
  cfrom := [1, 9, 0, 1, 0, 1]
  cuntil := [2, 9, 1, 2, 3, 1]
  sig := []
  sig_len := 0

set_option maxRecDepth 100000

/-- The record a dry-run wrap of `exCVC` with `exPriv` produces. -/
def exDryCvc : BtokCVC := { exCVC with sig_len := 48 }

/-- Claim-side name predicate: printable text of 8..12 characters. -/
def specNameOk (l : List Nat) : Prop :=
  8 ≤ l.length ∧ l.length ≤ 12 ∧ ∀ c ∈ l, charIsPrintable c = true

instance (l : List Nat) : Decidable (specNameOk l) := by
  unfold specNameOk
  infer_instance

/-- A CVC record with valid names and dates whose `pubkey_len` is outside
64/96/128 (here 50). -/
def exBadLenCvc : BtokCVC :=
  { exCVC with pubkey := List.replicate 50 1, pubkey_len := 50 }

/-- The certificate octets that wrapping `exCVC` with `exPriv` produces. -/
def exCertA : List Nat :=
  derElemEnc 0x7F21 (btokCVCBodyEnc exCVC ++
    derTOCTEnc 0x5F37 (btokSign (btokCVCBodyEnc exCVC) exPriv))

/-- The record unwrapping `exCertA` yields: `exCVC` with the signature
fields filled in. -/
def exParentDec : BtokCVC :=
  { exCVC with sig := btokSign (btokCVCBodyEnc exCVC) exPriv, sig_len := 48 }

/-- A child record satisfying the claim's conditions (a)-(d) against the
parent `exCertA`/`exPriv` but failing `btokCVCCheck` (its holder name is
3 characters long). -/
def exChildBad : BtokCVC where
  authority := exName2
  holder := [66, 66, 66]
  pubkey := List.replicate 64 7
  pubkey_len := 64
  hat_eid := List.replicate 5 0
  hat_esign := List.replicate 2 0
  cfrom := [2, 0, 0, 1, 0, 1]
  cuntil := [2, 5, 0, 1, 0, 1]
  sig := []
  sig_len := 0

theorem natBytesBEAux_congr : ∀ f g n, n ≤ f → n ≤ g →
    natBytesBEAux f n = natBytesBEAux g n := by
  intro f
  induction f with
  | zero =>
    intro g n hf _
    interval_cases n
    cases g with
    | zero => rfl
    | succ g => simp [natBytesBEAux]
  | succ f ih =>
    intro g n hf hg
    by_cases h0 : n = 0
    · subst h0
      cases g with
      | zero => simp [natBytesBEAux]
      | succ g => simp [natBytesBEAux]
    · have hn : 0 < n := Nat.pos_of_ne_zero h0
      have hg1 : 1 ≤ g := le_trans hn hg
      obtain ⟨g', rfl⟩ : ∃ g', g = g' + 1 := ⟨g - 1, by omega⟩
      have hdiv : n / 256 < n := Nat.div_lt_self hn (by norm_num)
      simp only [natBytesBEAux, if_neg h0]
      rw [ih g' (n / 256) (by omega) (by omega)]

theorem natBytesBE_eq (n : Nat) :
    natBytesBE n = if n = 0 then [] else natBytesBE (n / 256) ++ [n % 256] := by
  by_cases h0 : n = 0
  · subst h0; rfl
  · obtain ⟨m, rfl⟩ : ∃ m, n = m + 1 := ⟨n - 1, by omega⟩
    simp only [natBytesBE, natBytesBEAux, if_neg h0]
    rw [natBytesBEAux_congr m ((m + 1) / 256) ((m + 1) / 256)
      (by have := Nat.div_lt_self (Nat.succ_pos m) (by norm_num : (1:Nat) < 256); omega)
      le_rfl]

theorem bytesFromBE_append_one (l : List Nat) (b : Nat) :
    bytesFromBE (l ++ [b]) = 256 * bytesFromBE l + b := by
  simp [bytesFromBE, List.foldl_append]

theorem bytesFromBE_natBytesBE (n : Nat) : bytesFromBE (natBytesBE n) = n := by
  induction n using Nat.strong_induction_on with
  | _ n ih =>
    rw [natBytesBE_eq]
    by_cases h0 : n = 0
    · subst h0; simp [bytesFromBE]
    · rw [if_neg h0, bytesFromBE_append_one,
        ih (n / 256) (Nat.div_lt_self (Nat.pos_of_ne_zero h0) (by norm_num))]
      omega

theorem natBytesBE_head_ne_zero (n : Nat) (h : n ≠ 0) :
    ∃ d t, natBytesBE n = d :: t ∧ d ≠ 0 := by
  induction n using Nat.strong_induction_on with
  | _ n ih =>
    rw [natBytesBE_eq, if_neg h]
    by_cases hq : n / 256 = 0
    · rw [hq]
      refine ⟨n % 256, [], ?_, ?_⟩
      · simp [natBytesBE, natBytesBEAux]
      · have : n < 256 := (Nat.div_eq_zero_iff (by norm_num)).1 hq
        omega
    · obtain ⟨d, t, hdt, hd⟩ := ih (n / 256)
        (Nat.div_lt_self (Nat.pos_of_ne_zero h) (by norm_num)) hq
      exact ⟨d, t ++ [n % 256], by rw [hdt]; simp, hd⟩

theorem natBytesBE_ne_nil (n : Nat) (h : n ≠ 0) : natBytesBE n ≠ [] := by
  obtain ⟨d, t, hdt, _⟩ := natBytesBE_head_ne_zero n h
  simp [hdt]

theorem derLenDec_enc (n : Nat) (rest : List Nat) :
    derLenDec (derLenEnc n ++ rest) = some (n, rest) := by
  by_cases h : n < 128
  · simp [derLenEnc, derLenDec, h]
  · obtain ⟨d, t, hdt, hd⟩ := natBytesBE_head_ne_zero n (by omega)
    have hlen : (natBytesBE n).length ≠ 0 := by simp [hdt]
    simp only [derLenEnc, if_neg h, List.cons_append]
    simp only [derLenDec]
    rw [if_neg (by omega)]
    have hk : 128 + (natBytesBE n).length - 128 = (natBytesBE n).length := by omega
    rw [hk]
    rw [if_neg (by omega)]
    rw [if_neg (by simp [List.length_append])]
    rw [List.take_left, List.drop_left]
    rw [hdt]
    simp only [if_neg hd]
    rw [← hdt, bytesFromBE_natBytesBE]
    rw [if_neg (by omega)]

theorem derElemDec_enc (tag : Nat) (c rest : List Nat) :
    derElemDec tag (derElemEnc tag c ++ rest) = some (c, rest) := by
  simp only [derElemEnc, derElemDec, List.append_assoc]
  rw [List.take_left, if_pos rfl, List.drop_left, derLenDec_enc]
  simp [List.take_left, List.drop_left]

theorem derStartsWith_enc (tag : Nat) (c rest : List Nat) :
    derStartsWith tag (derElemEnc tag c ++ rest) = true := by
  simp only [derStartsWith, derElemEnc, List.append_assoc]
  rw [List.take_left]
  simp

theorem derTPSTRDec_enc (tag : Nat) (c rest : List Nat)
    (h : c.all charIsPrintable = true) :
    derTPSTRDec tag (derElemEnc tag c ++ rest) = some (c, rest) := by
  simp [derTPSTRDec, derElemDec_enc, h]

theorem derTOCTDec2_enc (tag : Nat) (c rest : List Nat)
    (h : c.length = n) :
    derTOCTDec2 tag n (derElemEnc tag c ++ rest) = some (c, rest) := by
  simp [derTOCTDec2, derElemDec_enc, h]

theorem derTSIZEDec2_enc (tag v : Nat) (rest : List Nat) :
    derTSIZEDec2 tag v (derElemEnc tag (derSIZEContent v) ++ rest) = some rest := by
  simp [derTSIZEDec2, derElemDec_enc]

theorem derOIDDec2_enc (arcs : List Nat) (rest : List Nat) :
    derOIDDec2 arcs (derOIDEnc arcs ++ rest) = some rest := by
  simp [derOIDDec2, derOIDEnc, derElemDec_enc]

theorem derBITDec_enc (u : Nat) (data rest : List Nat) (h : u ≤ 7) :
    derBITDec (derElemEnc 3 (u :: data) ++ rest) =
      some ((8 * data.length - u, data), rest) := by
  simp [derBITDec, derElemDec_enc, h]

theorem bignSignModel_length (body priv : List Nat) :
    (bignSignModel body priv).length = priv.length + priv.length / 2 := by
  simp [bignSignModel]

theorem derElemDec_enc_nil (tag : Nat) (c : List Nat) :
    derElemDec tag (derElemEnc tag c) = some (c, []) := by
  have h := derElemDec_enc tag c []
  simpa using h

theorem derTPSTRDec_enc_nil (tag : Nat) (c : List Nat)
    (h : c.all charIsPrintable = true) :
    derTPSTRDec tag (derElemEnc tag c) = some (c, []) := by
  have h2 := derTPSTRDec_enc tag c [] h
  simpa using h2

theorem derTOCTDec2_enc_nil (tag : Nat) (c : List Nat)
    (h : c.length = n) :
    derTOCTDec2 tag n (derElemEnc tag c) = some (c, []) := by
  have h2 := derTOCTDec2_enc tag c [] h
  simpa using h2

theorem derOIDDec2_enc_nil (arcs : List Nat) :
    derOIDDec2 arcs (derOIDEnc arcs) = some [] := by
  have h := derOIDDec2_enc arcs []
  simpa using h

theorem derBITDec_enc_nil (u : Nat) (data : List Nat) (h : u ≤ 7) :
    derBITDec (derElemEnc 3 (u :: data)) = some ((8 * data.length - u, data), []) := by
  have h2 := derBITDec_enc u data [] h
  simpa using h2

theorem derStartsWith_enc_nil (tag : Nat) (c : List Nat) :
    derStartsWith tag (derElemEnc tag c) = true := by
  have h := derStartsWith_enc tag c []
  simpa using h

theorem derStartsWith_7F4C_dates (c r : List Nat) :
    derStartsWith 0x7F4C (derElemEnc 0x5F25 c ++ r) = false := by
  have h1 : derTagEnc 0x5F25 = [95, 37] := by decide
  have h2 : derTagEnc 0x7F4C = [127, 76] := by decide
  simp only [derStartsWith, derElemEnc, List.append_assoc, h1, h2]
  simp [List.take]

theorem derStartsWith_65_nil : derStartsWith 0x65 [] = false := by decide

theorem derTSIZEDec2_enc0 (rest : List Nat) :
    derTSIZEDec2 0x5F29 0 (derElemEnc 0x5F29 [0] ++ rest) = some rest := by
  have h := derTSIZEDec2_enc 0x5F29 0 rest
  simpa [derSIZEContent] using h

theorem btokCVCBodyDecFields_spec
    (auth pk holder fr un : List Nat) (eid es : Option (List Nat))
    (hA1 : 8 ≤ auth.length) (hA2 : auth.length ≤ 12)
    (hA3 : auth.all charIsPrintable = true)
    (hH1 : 8 ≤ holder.length) (hH2 : holder.length ≤ 12)
    (hH3 : holder.all charIsPrintable = true)
    (hpk : pk.length = 64 ∨ pk.length = 96 ∨ pk.length = 128)
    (heid : ∀ e, eid = some e → e.length = 5)
    (hes : ∀ e, es = some e → e.length = 2)
    (hfr : fr.length = 6) (hun : un.length = 6) :
    btokCVCBodyDecFields (specBodyInner [0] auth (0 :: pk) holder eid fr un es) =
      some { authority := auth, holder := holder, pubkey := pk,
             pubkey_len := pk.length,
             hat_eid := eid.getD (List.replicate 5 0),
             hat_esign := es.getD (List.replicate 2 0),
             cfrom := fr, cuntil := un, sig := [], sig_len := 0 } := by
  have hAc : ¬(auth.length < 8 ∨ 12 < auth.length) := by omega
  have hHc : ¬(holder.length < 8 ∨ 12 < holder.length) := by omega
  have hblt : 8 * pk.length = 512 ∨ 8 * pk.length = 768 ∨ 8 * pk.length = 1024 := by
    rcases hpk with h | h | h <;> simp [h]
  have hdiv : 8 * pk.length / 8 = pk.length :=
    Nat.mul_div_cancel_left _ (by norm_num)
  rcases eid with _ | e <;> rcases es with _ | e2
  · simp only [specBodyInner, List.append_nil]
    simp [btokCVCBodyDecFields, derTSIZEDec2_enc0, derTPSTRDec_enc,
      derTPSTRDec_enc_nil, derElemDec_enc, derElemDec_enc_nil, derOIDDec2_enc,
      derOIDDec2_enc_nil, derBITDec_enc, derBITDec_enc_nil, derTOCTDec2_enc,
      derTOCTDec2_enc_nil, derStartsWith_enc, derStartsWith_enc_nil,
      derStartsWith_7F4C_dates, derStartsWith_65_nil, hA3, hH3, hAc, hHc,
      hblt, hfr, hun, hdiv]
  · have he2 : e2.length = 2 := hes e2 rfl
    simp only [specBodyInner, List.append_nil]
    simp [btokCVCBodyDecFields, derTSIZEDec2_enc0, derTPSTRDec_enc,
      derTPSTRDec_enc_nil, derElemDec_enc, derElemDec_enc_nil, derOIDDec2_enc,
      derOIDDec2_enc_nil, derBITDec_enc, derBITDec_enc_nil, derTOCTDec2_enc,
      derTOCTDec2_enc_nil, derStartsWith_enc, derStartsWith_enc_nil,
      derStartsWith_7F4C_dates, derStartsWith_65_nil, hA3, hH3, hAc, hHc,
      hblt, hfr, hun, hdiv, he2]
  · have he5 : e.length = 5 := heid e rfl
    simp only [specBodyInner, List.append_nil]
    simp [btokCVCBodyDecFields, derTSIZEDec2_enc0, derTPSTRDec_enc,
      derTPSTRDec_enc_nil, derElemDec_enc, derElemDec_enc_nil, derOIDDec2_enc,
      derOIDDec2_enc_nil, derBITDec_enc, derBITDec_enc_nil, derTOCTDec2_enc,
      derTOCTDec2_enc_nil, derStartsWith_enc, derStartsWith_enc_nil,
      derStartsWith_7F4C_dates, derStartsWith_65_nil, hA3, hH3, hAc, hHc,
      hblt, hfr, hun, hdiv, he5]
  · have he5 : e.length = 5 := heid e rfl
    have he2 : e2.length = 2 := hes e2 rfl
    simp only [specBodyInner, List.append_nil]
    simp [btokCVCBodyDecFields, derTSIZEDec2_enc0, derTPSTRDec_enc,
      derTPSTRDec_enc_nil, derElemDec_enc, derElemDec_enc_nil, derOIDDec2_enc,
      derOIDDec2_enc_nil, derBITDec_enc, derBITDec_enc_nil, derTOCTDec2_enc,
      derTOCTDec2_enc_nil, derStartsWith_enc, derStartsWith_enc_nil,
      derStartsWith_7F4C_dates, derStartsWith_65_nil, hA3, hH3, hAc, hHc,
      hblt, hfr, hun, hdiv, he5, he2]

theorem btokCVCNameIsValid_parts (l : List Nat)
    (h : btokCVCNameIsValid l = true) :
    8 ≤ l.length ∧ l.length ≤ 12 ∧ l.all charIsPrintable = true := by
  simp only [btokCVCNameIsValid, Bool.and_eq_true, decide_eq_true_eq] at h
  exact ⟨h.1.1, h.1.2, h.2⟩

theorem btokCVCDateIsValid_length (d : List Nat)
    (h : btokCVCDateIsValid d = true) : d.length = 6 := by
  simp only [btokCVCDateIsValid, Bool.and_eq_true, decide_eq_true_eq] at h
  tauto

theorem memIsZero_eq_replicate (l : List Nat) (n : Nat)
    (hz : memIsZero l = true) (hl : l.length = n) : l = List.replicate n 0 := by
  simp only [memIsZero, List.all_eq_true, beq_iff_eq] at hz
  exact List.eq_replicate_iff.2 ⟨hl, fun b hb => hz b hb⟩

theorem btokCVCCheck_ok_parts (cvc : BtokCVC) (h : btokCVCCheck cvc = .ok) :
    btokCVCNameIsValid cvc.authority = true ∧
    btokCVCNameIsValid cvc.holder = true ∧
    btokCVCDateIsValid cvc.cfrom = true ∧
    btokCVCDateIsValid cvc.cuntil = true ∧
    btokCVCDateLeq cvc.cfrom cvc.cuntil = true ∧
    (cvc.pubkey_len = 64 ∨ cvc.pubkey_len = 96 ∨ cvc.pubkey_len = 128) ∧
    bignValPubkey (cvc.pubkey.take cvc.pubkey_len) = .ok := by
  unfold btokCVCCheck at h
  by_cases hn : (btokCVCNameIsValid cvc.authority &&
      btokCVCNameIsValid cvc.holder) = true
  · rw [if_neg (not_not_intro hn)] at h
    by_cases hd : (btokCVCDateIsValid cvc.cfrom && btokCVCDateIsValid cvc.cuntil &&
        btokCVCDateLeq cvc.cfrom cvc.cuntil) = true
    · rw [if_neg (not_not_intro hd)] at h
      unfold btokPubkeyVal at h
      by_cases hl : cvc.pubkey_len = 64 ∨ cvc.pubkey_len = 96 ∨
          cvc.pubkey_len = 128
      · rw [if_neg (not_not_intro hl)] at h
        simp only [Bool.and_eq_true] at hn hd
        exact ⟨hn.1, hn.2, hd.1.1, hd.1.2, hd.2, hl, h⟩
      · rw [if_pos hl] at h
        exact Err.noConfusion h
    · rw [if_pos hd] at h
      exact Err.noConfusion h
  · rw [if_pos hn] at h
    exact Err.noConfusion h

theorem btokCVCCheck_ok_info (cvc : BtokCVC) (h : btokCVCCheck cvc = .ok) :
    btokCVCInfoSeemsValid cvc = true := by
  obtain ⟨h1, h2, h3, h4, h5, h6, _⟩ := btokCVCCheck_ok_parts cvc h
  simp only [btokCVCInfoSeemsValid, Bool.and_eq_true, Bool.or_eq_true,
    decide_eq_true_eq]
  exact ⟨⟨⟨⟨⟨h1, h2⟩, h3⟩, h4⟩, h5⟩, by tauto⟩

theorem btokCVCBodyEnc_spec (cvc : BtokCVC) :
    btokCVCBodyEnc cvc = specBodyWire [0] cvc.authority (0 :: cvc.pubkey)
      cvc.holder (if memIsZero cvc.hat_eid then none else some cvc.hat_eid)
      cvc.cfrom cvc.cuntil
      (if memIsZero cvc.hat_esign then none else some cvc.hat_esign) := by
  have hpad : (8 - (8 * cvc.pubkey_len) % 8) % 8 = 0 := by
    simp [Nat.mul_mod_right]
  unfold btokCVCBodyEnc specBodyWire specBodyInner derTSIZEEnc derTPSTREnc
    derTOCTEnc derBITEnc
  rw [hpad]
  by_cases h1 : memIsZero cvc.hat_eid <;> by_cases h2 : memIsZero cvc.hat_esign <;>
    simp [h1, h2, derSIZEContent]

theorem btokCVCBodyDec_spec
    (auth pk holder fr un : List Nat) (eid es : Option (List Nat)) (extra : List Nat)
    (hA1 : 8 ≤ auth.length) (hA2 : auth.length ≤ 12)
    (hA3 : auth.all charIsPrintable = true)
    (hH1 : 8 ≤ holder.length) (hH2 : holder.length ≤ 12)
    (hH3 : holder.all charIsPrintable = true)
    (hpk : pk.length = 64 ∨ pk.length = 96 ∨ pk.length = 128)
    (heid : ∀ e, eid = some e → e.length = 5)
    (hes : ∀ e, es = some e → e.length = 2)
    (hfr : fr.length = 6) (hun : un.length = 6) :
    btokCVCBodyDec (specBodyWire [0] auth (0 :: pk) holder eid fr un es ++ extra) =
      some ({ authority := auth, holder := holder, pubkey := pk,
              pubkey_len := pk.length,
              hat_eid := eid.getD (List.replicate 5 0),
              hat_esign := es.getD (List.replicate 2 0),
              cfrom := fr, cuntil := un, sig := [], sig_len := 0 },
            (specBodyWire [0] auth (0 :: pk) holder eid fr un es).length) := by
  have hfields := btokCVCBodyDecFields_spec auth pk holder fr un eid es
    hA1 hA2 hA3 hH1 hH2 hH3 hpk heid hes hfr hun
  unfold btokCVCBodyDec
  rw [specBodyWire, derElemDec_enc]
  simp only [hfields, List.length_append, Nat.add_sub_cancel]

theorem btokCVCBodyDec_enc (cvc : BtokCVC) (rest : List Nat)
    (hWF : cvc.WF) (hinfo : btokCVCInfoSeemsValid cvc = true) :
    btokCVCBodyDec (btokCVCBodyEnc cvc ++ rest) =
      some ({ cvc with sig := [], sig_len := 0 }, (btokCVCBodyEnc cvc).length) := by
  simp only [btokCVCInfoSeemsValid, Bool.and_eq_true, Bool.or_eq_true,
    decide_eq_true_eq] at hinfo
  obtain ⟨⟨⟨⟨⟨hna, hnh⟩, hdf⟩, hdu⟩, _⟩, hlen⟩ := hinfo
  obtain ⟨ha1, ha2, ha3⟩ := btokCVCNameIsValid_parts _ hna
  obtain ⟨hh1, hh2, hh3⟩ := btokCVCNameIsValid_parts _ hnh
  obtain ⟨hWF1, hWF2, hWF3, hWF4, hWF5⟩ := hWF
  have hpk : cvc.pubkey.length = 64 ∨ cvc.pubkey.length = 96 ∨
      cvc.pubkey.length = 128 := by
    rw [hWF1]
    tauto
  rw [btokCVCBodyEnc_spec]
  rw [btokCVCBodyDec_spec cvc.authority cvc.pubkey cvc.holder cvc.cfrom cvc.cuntil
    (if memIsZero cvc.hat_eid then none else some cvc.hat_eid)
    (if memIsZero cvc.hat_esign then none else some cvc.hat_esign) rest
    ha1 ha2 ha3 hh1 hh2 hh3 hpk
    (by
      intro e he
      split_ifs at he with hz
      injection he with h
      exact h ▸ hWF2)
    (by
      intro e he
      split_ifs at he with hz
      injection he with h
      exact h ▸ hWF3)
    (btokCVCDateIsValid_length _ hdf) (btokCVCDateIsValid_length _ hdu)]
  rw [← btokCVCBodyEnc_spec]
  have heidEq : (if memIsZero cvc.hat_eid then none
      else some cvc.hat_eid).getD (List.replicate 5 0) = cvc.hat_eid := by
    split_ifs with hz
    · rw [Option.getD_none]
      exact (memIsZero_eq_replicate _ 5 hz hWF2).symm
    · rfl
  have hesEq : (if memIsZero cvc.hat_esign then none
      else some cvc.hat_esign).getD (List.replicate 2 0) = cvc.hat_esign := by
    split_ifs with hz
    · rw [Option.getD_none]
      exact (memIsZero_eq_replicate _ 2 hz hWF3).symm
    · rfl
  rw [heidEq, hesEq, hWF1]

theorem bignValPubkey_calc (priv : List Nat) :
    bignValPubkey (bignCalcPubkey priv) = .ok := by
  unfold bignValPubkey bignCalcPubkey
  have h2 : (priv ++ priv).length / 2 = priv.length := by
    rw [List.length_append]
    omega
  rw [h2, List.take_left, List.drop_left, if_pos rfl]

theorem btokVerify_calc (body priv : List Nat) :
    btokVerify body (bignSignModel body priv) (bignCalcPubkey priv) = .ok := by
  have h2 : (bignCalcPubkey priv).length / 2 = priv.length := by
    unfold bignCalcPubkey
    rw [List.length_append]
    omega
  have h3 : (bignCalcPubkey priv).take ((bignCalcPubkey priv).length / 2) = priv := by
    rw [h2]
    unfold bignCalcPubkey
    exact List.take_left priv priv
  unfold btokVerify
  rw [bignValPubkey_calc, h3, if_pos rfl]

theorem btokCVCCheck_set_sig (cvc : BtokCVC) (s : List Nat) (n : Nat) :
    btokCVCCheck { cvc with sig := s, sig_len := n } = btokCVCCheck cvc := rfl

theorem btokCVCWrap_ok_shape (withCert : Bool) (cvc : BtokCVC) (priv : List Nat)
    (hpl : priv.length = 32 ∨ priv.length = 48 ∨ priv.length = 64)
    (hchk : btokCVCCheck cvc = .ok) :
    btokCVCWrap withCert cvc priv = .ok
      ({ cvc with
          sig := if withCert then btokSign (btokCVCBodyEnc cvc) priv else cvc.sig,
          sig_len := priv.length + priv.length / 2 },
        (if withCert then
          derElemEnc 0x7F21 (btokCVCBodyEnc cvc ++
            derTOCTEnc 0x5F37 (btokSign (btokCVCBodyEnc cvc) priv))
        else []),
        (derTagEnc 0x7F21).length +
          (derLenEnc ((btokCVCBodyEnc cvc).length +
            ((derTagEnc 0x5F37).length +
             (derLenEnc (priv.length + priv.length / 2)).length +
             (priv.length + priv.length / 2)))).length +
          ((btokCVCBodyEnc cvc).length +
            ((derTagEnc 0x5F37).length +
             (derLenEnc (priv.length + priv.length / 2)).length +
             (priv.length + priv.length / 2)))) := by
  have hnz : ¬(cvc.pubkey_len = 0) := by
    obtain ⟨_, _, _, _, _, h6, _⟩ := btokCVCCheck_ok_parts cvc hchk
    rcases h6 with h | h | h <;> omega
  rcases hpl with h | h | h <;> cases withCert <;>
    simp [btokCVCWrap, h, hnz, hchk]

theorem btokSign_length (body priv : List Nat) :
    (btokSign body priv).length = priv.length + priv.length / 2 := by
  simpa [btokSign] using bignSignModel_length body priv

theorem bignCalcPubkey_length (priv : List Nat) :
    (bignCalcPubkey priv).length = 2 * priv.length := by
  simp [bignCalcPubkey, two_mul]

theorem btokCVCUnwrap_wrap_pub (cvc : BtokCVC) (priv : List Nat)
    (hWF : cvc.WF)
    (hpl : priv.length = 32 ∨ priv.length = 48 ∨ priv.length = 64)
    (hchk : btokCVCCheck cvc = .ok) :
    btokCVCUnwrap
      (derElemEnc 0x7F21 (btokCVCBodyEnc cvc ++
        derTOCTEnc 0x5F37 (btokSign (btokCVCBodyEnc cvc) priv)))
      (bignCalcPubkey priv) =
    .ok ({ cvc with
        sig := btokSign (btokCVCBodyEnc cvc) priv,
        sig_len := priv.length + priv.length / 2 }) := by
  have hinfo := btokCVCCheck_ok_info cvc hchk
  have hbody := btokCVCBodyDec_enc cvc
    (derTOCTEnc 0x5F37 (btokSign (btokCVCBodyEnc cvc) priv)) hWF hinfo
  simp only [derTOCTEnc] at hbody
  have hver : btokVerify (btokCVCBodyEnc cvc)
      (btokSign (btokCVCBodyEnc cvc) priv) (bignCalcPubkey priv) = .ok := by
    simpa [btokSign] using btokVerify_calc (btokCVCBodyEnc cvc) priv
  have hcs := btokCVCCheck_set_sig cvc (btokSign (btokCVCBodyEnc cvc) priv)
    (priv.length + priv.length / 2)
  rcases hpl with h | h | h <;>
    simp [btokCVCUnwrap, derElemDec_enc_nil, hbody, bignCalcPubkey_length, h,
      List.take_left, List.drop_left, derTOCTDec2_enc_nil, btokSign_length,
      derTOCTEnc, hver, hcs, hchk, btokCVCCheck_set_sig]

theorem btokCVCUnwrap_wrap_infer (cvc : BtokCVC) (priv : List Nat)
    (hWF : cvc.WF)
    (hpl : priv.length = 32 ∨ priv.length = 48 ∨ priv.length = 64)
    (hchk : btokCVCCheck cvc = .ok) :
    btokCVCUnwrap
      (derElemEnc 0x7F21 (btokCVCBodyEnc cvc ++
        derTOCTEnc 0x5F37 (btokSign (btokCVCBodyEnc cvc) priv))) [] =
    .ok ({ cvc with
        sig := btokSign (btokCVCBodyEnc cvc) priv,
        sig_len := priv.length + priv.length / 2 }) := by
  have hinfo := btokCVCCheck_ok_info cvc hchk
  have hbody := btokCVCBodyDec_enc cvc
    (derTOCTEnc 0x5F37 (btokSign (btokCVCBodyEnc cvc) priv)) hWF hinfo
  simp only [derTOCTEnc] at hbody
  have hcs := btokCVCCheck_set_sig cvc (btokSign (btokCVCBodyEnc cvc) priv)
    (priv.length + priv.length / 2)
  rcases hpl with h | h | h <;>
    simp [btokCVCUnwrap, derElemDec_enc_nil, hbody, h, derDec3,
      List.take_left, List.drop_left, derTOCTDec2_enc_nil, derElemDec_enc_nil,
      btokSign_length, derTOCTEnc, derElemDec_enc, hcs, hchk,
      btokCVCCheck_set_sig, derTOCTDec2]

theorem specFirstTrial_fold (r : List Nat) :
    specFirstTrial r =
      (if derDec3 0x5F37 48 r then some 48
       else if derDec3 0x5F37 72 r then some 72
       else if derDec3 0x5F37 96 r then some 96 else none) := rfl

theorem btokCVCUnwrap_ok_inv (cert pub : List Nat) (c : BtokCVC)
    (h : btokCVCUnwrap cert pub = .ok c) :
    ∃ content rest0 cvc1 t,
      derElemDec 0x7F21 cert = some (content, rest0) ∧
      btokCVCBodyDec content = some (cvc1, t) ∧
      btokCVCCheck c = .ok ∧
      (pub.length ≠ 0 → c.sig_len = pub.length - pub.length / 4) ∧
      (pub.length = 0 → specFirstTrial (content.drop t) = some c.sig_len) := by
  unfold btokCVCUnwrap at h
  by_cases hg : pub.length = 0 ∨ pub.length = 64 ∨ pub.length = 96 ∨
      pub.length = 128
  · rw [if_neg (not_not_intro hg)] at h
    simp only [← specFirstTrial_fold] at h
    by_cases hp : pub.length = 0
    · rw [hp] at h
      simp at h
      split at h
      · exact absurd h (by simp)
      · rename_i content rest0 hE
        split at h
        · exact absurd h (by simp)
        · rename_i pr cvc1 t hB
          split at h
          · exact absurd h (by simp)
          · rename_i slen hS
            split at h
            · exact absurd h (by simp)
            · rename_i pr2 sigv rest2 hT
              split_ifs at h with hr
              · split at h
                · rename_i hc
                  have hceq : ({ cvc1 with sig := sigv, sig_len := slen } : BtokCVC) = c := by
                    injection h
                  refine ⟨content, rest0, cvc1, t, hE, hB, hceq ▸ hc, ?_, ?_⟩
                  · intro hpn
                    exact absurd hp hpn
                  · intro _
                    rw [← hceq]
                    exact hS
                · exact absurd h (by simp)
    · simp only [hp] at h
      simp at h
      split at h
      · exact absurd h (by simp)
      · rename_i content rest0 hE
        split at h
        · exact absurd h (by simp)
        · rename_i pr cvc1 t hB
          split at h
          · exact absurd h (by simp)
          · rename_i pr2 sigv rest2 hT
            split at h
            · split_ifs at h with hr
              · split at h
                · rename_i hc
                  have hceq : ({ cvc1 with sig := sigv, sig_len := pub.length - pub.length / 4 } : BtokCVC) = c := by
                    injection h
                  refine ⟨content, rest0, cvc1, t, hE, hB, hceq ▸ hc, ?_, ?_⟩
                  · intro _
                    rw [← hceq]
                  · intro hz
                    exact absurd hz hp
                · exact absurd h (by simp)
            · exact absurd h (by simp)
  · rw [if_pos hg] at h
    exact absurd h (by simp)

theorem btokKeypairVal_ok_inv (priv pub : List Nat) (pub_len : Nat)
    (h : btokKeypairVal priv pub pub_len = .ok) :
    (priv.length = 32 ∨ priv.length = 48 ∨ priv.length = 64) ∧
    pub_len = 2 * priv.length ∧ bignCalcPubkey priv = pub.take pub_len := by
  unfold btokKeypairVal at h
  split_ifs at h with h1 h2 h3 <;>
    first
      | exact ⟨h1, not_ne_iff.mp h2, h3⟩
      | simp at h

theorem btokCVCCheck2_ok_inv (cvc cvca : BtokCVC)
    (h : btokCVCCheck2 cvc cvca = .ok) :
    btokCVCCheck cvc = .ok ∧ cvc.authority = cvca.holder ∧
    btokCVCDateIsValid cvca.cfrom = true ∧ btokCVCDateIsValid cvca.cuntil = true ∧
    btokCVCDateLeq cvca.cfrom cvc.cfrom = true ∧
    btokCVCDateLeq cvc.cfrom cvca.cuntil = true := by
  unfold btokCVCCheck2 at h
  split at h
  · rename_i hchk
    split_ifs at h with h1 h2 <;>
      first
        | (simp only [Bool.and_eq_true] at h2
           exact ⟨hchk, not_ne_iff.mp h1, h2.1.1.1, h2.1.1.2, h2.1.2, h2.2⟩)
        | simp at h
  · rename_i hcon
    exact absurd h hcon

theorem btokCVCDateLeq_iff_specLexLe (l r : List Nat) :
    btokCVCDateLeq l r = true ↔ specLexLe l r = true := by
  induction l generalizing r with
  | nil => cases r <;> simp [btokCVCDateLeq, memCmp, specLexLe]
  | cons a as ih =>
    cases r with
    | nil => simp [btokCVCDateLeq, memCmp, specLexLe]
    | cons b bs =>
      by_cases hab : a < b
      · simp [btokCVCDateLeq, memCmp, specLexLe, hab]
      · by_cases hba : b < a
        · have hne : ¬(a = b) := by omega
          simp [btokCVCDateLeq, memCmp, specLexLe, hab, hba, hne]
        · have heq : a = b := by omega
          subst heq
          simp only [btokCVCDateLeq, memCmp, if_neg hab, if_neg hba, specLexLe]
          rw [← btokCVCDateLeq]
          simp [ih bs]

theorem btokCVCWrap_eq (withCert : Bool) (cvc : BtokCVC) (priv : List Nat)
    (hpl : priv.length = 32 ∨ priv.length = 48 ∨ priv.length = 64) :
    btokCVCWrap withCert cvc priv =
      match btokCVCCheck (btokCVCPub cvc priv) with
      | .ok => .ok ({ btokCVCPub cvc priv with
            sig := if withCert then
                btokSign (btokCVCBodyEnc (btokCVCPub cvc priv)) priv
              else (btokCVCPub cvc priv).sig,
            sig_len := priv.length + priv.length / 2 },
          (if withCert then
            derElemEnc 0x7F21 (btokCVCBodyEnc (btokCVCPub cvc priv) ++
              derTOCTEnc 0x5F37 (btokSign (btokCVCBodyEnc (btokCVCPub cvc priv)) priv))
          else []),
          wrapCount cvc priv)
      | e => .err e := by
  have hcalc : btokPubkeyCalc priv = .ok (bignCalcPubkey priv) := by
    unfold btokPubkeyCalc
    rw [if_neg (not_not_intro hpl)]
  unfold btokCVCWrap wrapCount btokCVCPub
  rw [if_neg (not_not_intro hpl)]
  by_cases hz : cvc.pubkey_len = 0 <;>
    simp [hz, hcalc] <;>
    cases hc : btokCVCCheck (if cvc.pubkey_len = 0 then
      { cvc with pubkey := bignCalcPubkey priv, pubkey_len := 2 * priv.length }
      else cvc) <;>
    simp_all

theorem btokCVCPub_sig (cvc : BtokCVC) (priv : List Nat) :
    (btokCVCPub cvc priv).sig = cvc.sig := by
  unfold btokCVCPub
  split <;> rfl

theorem btokCVCPub_frame (cvc : BtokCVC) (priv : List Nat) :
    (btokCVCPub cvc priv).authority = cvc.authority ∧
    (btokCVCPub cvc priv).holder = cvc.holder ∧
    (btokCVCPub cvc priv).hat_eid = cvc.hat_eid ∧
    (btokCVCPub cvc priv).hat_esign = cvc.hat_esign ∧
    (btokCVCPub cvc priv).cfrom = cvc.cfrom ∧
    (btokCVCPub cvc priv).cuntil = cvc.cuntil ∧
    (btokCVCPub cvc priv).sig_len = cvc.sig_len := by
  unfold btokCVCPub
  split <;> exact ⟨rfl, rfl, rfl, rfl, rfl, rfl, rfl⟩

theorem btokCVCPub_zero (cvc : BtokCVC) (priv : List Nat)
    (hz : cvc.pubkey_len = 0) :
    (btokCVCPub cvc priv).pubkey = bignCalcPubkey priv ∧
    (btokCVCPub cvc priv).pubkey_len = 2 * priv.length := by
  unfold btokCVCPub
  rw [if_pos hz]
  exact ⟨rfl, rfl⟩

theorem btokCVCPub_nonzero (cvc : BtokCVC) (priv : List Nat)
    (hz : cvc.pubkey_len ≠ 0) :
    (btokCVCPub cvc priv).pubkey = cvc.pubkey ∧
    (btokCVCPub cvc priv).pubkey_len = cvc.pubkey_len := by
  unfold btokCVCPub
  rw [if_neg hz]
  exact ⟨rfl, rfl⟩

theorem wrapCert_length (body sig : List Nat) (slen : Nat) (hs : sig.length = slen) :
    (derElemEnc 0x7F21 (body ++ derTOCTEnc 0x5F37 sig)).length =
      (derTagEnc 0x7F21).length +
        (derLenEnc (body.length + ((derTagEnc 0x5F37).length +
          (derLenEnc slen).length + slen))).length +
        (body.length + ((derTagEnc 0x5F37).length +
          (derLenEnc slen).length + slen)) := by
  have harg : (body ++ derTOCTEnc 0x5F37 sig).length =
      body.length + ((derTagEnc 0x5F37).length + (derLenEnc slen).length + slen) := by
    simp [derTOCTEnc, derElemEnc, List.length_append, hs]
    omega
  rw [derElemEnc, List.length_append, List.length_append, harg]

theorem btokCVCWrap_false_inv (cvc : BtokCVC) (priv : List Nat)
    (cvc1 : BtokCVC) (out : List Nat) (n : Nat)
    (h : btokCVCWrap false cvc priv = .ok (cvc1, out, n)) :
    (priv.length = 32 ∨ priv.length = 48 ∨ priv.length = 64) ∧
    btokCVCCheck (btokCVCPub cvc priv) = .ok ∧
    cvc1 = { btokCVCPub cvc priv with
      sig := (btokCVCPub cvc priv).sig,
      sig_len := priv.length + priv.length / 2 } ∧
    out = [] ∧ n = wrapCount cvc priv := by
  have hpl : priv.length = 32 ∨ priv.length = 48 ∨ priv.length = 64 := by
    by_contra hn
    unfold btokCVCWrap at h
    rw [if_pos hn] at h
    exact absurd h (by simp)
  rw [btokCVCWrap_eq false cvc priv hpl] at h
  cases hc : btokCVCCheck (btokCVCPub cvc priv) <;> simp_all

/-- C9: a dry-run wrap (null certificate buffer) that returns OK leaves
`cvc->sig` unchanged (the signer is never called), yet mutates the record
exactly as a real call would in its other fields: when `pubkey_len` was 0
on entry it replaces `pubkey` by the derived key (the rest of the key
buffer holds nothing but that key, modelling the zeroed tail) and sets
`pubkey_len` to twice the private-key length; otherwise it leaves both
untouched; in all cases it sets `sig_len` to
`privkey_len + privkey_len/2`, and a subsequent real call produces a
record that agrees with the dry-run record on every field except `sig`. -/
theorem C9_dry_run_frame (cvc : BtokCVC) (priv : List Nat)
    (cvc1 : BtokCVC) (out : List Nat) (n : Nat)
    (h : btokCVCWrap false cvc priv = .ok (cvc1, out, n)) :
    cvc1.sig = cvc.sig ∧
    cvc1.sig_len = priv.length + priv.length / 2 ∧
    (cvc.pubkey_len = 0 →
      cvc1.pubkey = bignCalcPubkey priv ∧ cvc1.pubkey_len = 2 * priv.length) ∧
    (cvc.pubkey_len ≠ 0 →
      cvc1.pubkey = cvc.pubkey ∧ cvc1.pubkey_len = cvc.pubkey_len) ∧
    cvc1.authority = cvc.authority ∧ cvc1.holder = cvc.holder ∧
    cvc1.hat_eid = cvc.hat_eid ∧ cvc1.hat_esign = cvc.hat_esign ∧
    cvc1.cfrom = cvc.cfrom ∧ cvc1.cuntil = cvc.cuntil ∧
    (∃ cvc2 cert n2, btokCVCWrap true cvc priv = .ok (cvc2, cert, n2) ∧
      cvc2 = { cvc1 with sig := cvc2.sig }) := by
  obtain ⟨hpl, hc, hcvc1, hout, hn⟩ := btokCVCWrap_false_inv cvc priv cvc1 out n h
  obtain ⟨hfa, hfh, hfe, hfs, hff, hfu, _⟩ := btokCVCPub_frame cvc priv
  subst hcvc1
  refine ⟨btokCVCPub_sig cvc priv, rfl, ?_, ?_, hfa, hfh, hfe, hfs, hff, hfu, ?_⟩
  · intro hz
    exact btokCVCPub_zero cvc priv hz
  · intro hz
    exact btokCVCPub_nonzero cvc priv hz
  · refine ⟨{ btokCVCPub cvc priv with
        sig := btokSign (btokCVCBodyEnc (btokCVCPub cvc priv)) priv,
        sig_len := priv.length + priv.length / 2 },
      derElemEnc 0x7F21 (btokCVCBodyEnc (btokCVCPub cvc priv) ++
        derTOCTEnc 0x5F37 (btokSign (btokCVCBodyEnc (btokCVCPub cvc priv)) priv)),
      wrapCount cvc priv, ?_, rfl⟩
    rw [btokCVCWrap_eq true cvc priv hpl, hc]
    simp

/-- C4: a dry-run wrap (null output buffer, non-null length pointer) never
invokes the signer — the record's `sig` is unchanged — and when it
returns OK, the length it reports equals the total certificate length
that a subsequent real wrap call with the same inputs produces (which is
also the length that call reports). -/
theorem C4_dry_run_length (cvc : BtokCVC) (priv : List Nat)
    (cvc1 : BtokCVC) (out : List Nat) (n : Nat)
    (h : btokCVCWrap false cvc priv = .ok (cvc1, out, n)) :
    cvc1.sig = cvc.sig ∧
    ∃ cvc2 cert n2, btokCVCWrap true cvc priv = .ok (cvc2, cert, n2) ∧
      n2 = n ∧ cert.length = n := by
  obtain ⟨hpl, hc, hcvc1, hout, hn⟩ := btokCVCWrap_false_inv cvc priv cvc1 out n h
  subst hcvc1
  refine ⟨btokCVCPub_sig cvc priv,
    { btokCVCPub cvc priv with
        sig := btokSign (btokCVCBodyEnc (btokCVCPub cvc priv)) priv,
        sig_len := priv.length + priv.length / 2 },
    derElemEnc 0x7F21 (btokCVCBodyEnc (btokCVCPub cvc priv) ++
      derTOCTEnc 0x5F37 (btokSign (btokCVCBodyEnc (btokCVCPub cvc priv)) priv)),
    wrapCount cvc priv, ?_, hn.symm, ?_⟩
  · rw [btokCVCWrap_eq true cvc priv hpl, hc]
    simp
  · rw [hn]
    exact wrapCert_length (btokCVCBodyEnc (btokCVCPub cvc priv))
      (btokSign (btokCVCBodyEnc (btokCVCPub cvc priv)) priv)
      (priv.length + priv.length / 2)
      (btokSign_length (btokCVCBodyEnc (btokCVCPub cvc priv)) priv)

/-- C1: for every CVC record that passes `btokCVCCheck` (with the buffer
sizes of the C type) and every private key of length 32, 48 or 64
octets, wrapping the record with that key and then unwrapping the
produced certificate with the public key derived from the same private
key succeeds and yields a CVC equal in every field to the record as it
stood after wrap (here `pubkey` is already materialized, since a record
passing check has `pubkey_len` in 64/96/128); the signature verification
inside unwrap reports OK. -/
theorem C1_wrap_unwrap_round_trip (cvc : BtokCVC) (priv : List Nat)
    (hWF : cvc.WF)
    (hpl : priv.length = 32 ∨ priv.length = 48 ∨ priv.length = 64)
    (hchk : btokCVCCheck cvc = .ok) :
    ∃ cvc1 cert n,
      btokCVCWrap true cvc priv = .ok (cvc1, cert, n) ∧
      btokCVCUnwrap cert (bignCalcPubkey priv) = .ok cvc1 ∧
      btokVerify (btokCVCBodyEnc cvc) cvc1.sig (bignCalcPubkey priv) = .ok := by
  refine ⟨{ cvc with
      sig := btokSign (btokCVCBodyEnc cvc) priv,
      sig_len := priv.length + priv.length / 2 },
    derElemEnc 0x7F21 (btokCVCBodyEnc cvc ++
      derTOCTEnc 0x5F37 (btokSign (btokCVCBodyEnc cvc) priv)),
    (derTagEnc 0x7F21).length +
      (derLenEnc ((btokCVCBodyEnc cvc).length +
        ((derTagEnc 0x5F37).length +
         (derLenEnc (priv.length + priv.length / 2)).length +
         (priv.length + priv.length / 2)))).length +
      ((btokCVCBodyEnc cvc).length +
        ((derTagEnc 0x5F37).length +
         (derLenEnc (priv.length + priv.length / 2)).length +
         (priv.length + priv.length / 2))), ?_, ?_, ?_⟩
  · have hs := btokCVCWrap_ok_shape true cvc priv hpl hchk
    simpa using hs
  · exact btokCVCUnwrap_wrap_pub cvc priv hWF hpl hchk
  · simpa [btokSign] using btokVerify_calc (btokCVCBodyEnc cvc) priv

theorem btokCVCInfoSeemsValidA_eq (cvc : BtokCVC) :
    btokCVCInfoSeemsValidA cvc = some (btokCVCInfoSeemsValid cvc) := by
  by_cases h1 : btokCVCNameIsValid cvc.authority <;>
  by_cases h2 : btokCVCNameIsValid cvc.holder <;>
  by_cases h3 : btokCVCDateIsValid cvc.cfrom <;>
  by_cases h4 : btokCVCDateIsValid cvc.cuntil <;>
    simp [btokCVCInfoSeemsValidA, btokCVCInfoSeemsValid, btokCVCDateLeqA,
      h1, h2, h3, h4]

theorem btokCVCCheckA_eq (cvc : BtokCVC) :
    btokCVCCheckA cvc = some (btokCVCCheck cvc) := by
  by_cases h1 : (btokCVCNameIsValid cvc.authority &&
      btokCVCNameIsValid cvc.holder) = true <;>
  by_cases h3 : btokCVCDateIsValid cvc.cfrom <;>
  by_cases h4 : btokCVCDateIsValid cvc.cuntil <;>
  by_cases h5 : btokCVCDateLeq cvc.cfrom cvc.cuntil <;>
    simp [btokCVCCheckA, btokCVCCheck, btokCVCDateLeqA, h1, h3, h4, h5]

theorem btokCVCCheck2A_eq (cvc cvca : BtokCVC) :
    btokCVCCheck2A cvc cvca = some (btokCVCCheck2 cvc cvca) := by
  unfold btokCVCCheck2A btokCVCCheck2
  rw [btokCVCCheckA_eq]
  cases hc : btokCVCCheck cvc
  case ok =>
    obtain ⟨hna, hnh, hdf, hdu, _, _, _⟩ := btokCVCCheck_ok_parts cvc hc
    by_cases h5 : cvc.authority = cvca.holder <;>
    by_cases h3 : btokCVCDateIsValid cvca.cfrom <;>
    by_cases h4 : btokCVCDateIsValid cvca.cuntil <;>
    by_cases h6 : btokCVCDateLeq cvca.cfrom cvc.cfrom <;>
    by_cases h7 : btokCVCDateLeq cvc.cfrom cvca.cuntil <;>
      simp [btokCVCDateLeqA, h5, h3, h4, h6, h7, hdf, hdu]
  all_goals simp

theorem btokCVCWrapA_eq (withCert : Bool) (cvc : BtokCVC) (priv : List Nat) :
    btokCVCWrapA withCert cvc priv = some (btokCVCWrap withCert cvc priv) := by
  unfold btokCVCWrapA btokCVCWrap
  by_cases hpl : priv.length = 32 ∨ priv.length = 48 ∨ priv.length = 64
  · rw [if_neg (not_not_intro hpl), if_neg (not_not_intro hpl)]
    have hcalc : btokPubkeyCalc priv = .ok (bignCalcPubkey priv) := by
      unfold btokPubkeyCalc
      rw [if_neg (not_not_intro hpl)]
    by_cases hz : cvc.pubkey_len = 0
    · simp only [if_pos hz, hcalc]
      cases hc : btokCVCCheck
          { cvc with pubkey := bignCalcPubkey priv, pubkey_len := 2 * priv.length }
      · have hinfo := btokCVCCheck_ok_info _ hc
        simp [btokCVCBodyEncA, btokCVCInfoSeemsValidA_eq, hinfo]
      all_goals simp
    · simp only [if_neg hz]
      cases hc : btokCVCCheck cvc
      · have hinfo := btokCVCCheck_ok_info _ hc
        simp [btokCVCBodyEncA, btokCVCInfoSeemsValidA_eq, hinfo]
      all_goals simp
  · rw [if_pos hpl, if_pos hpl]

/-- C10: the asserted preconditions hold at every call site.  The
assertion-instrumented clones (`none` = an assertion fired) agree with
the plain functions and never return `none`: the date comparator's
asserted validity of both arguments holds inside the info-validity
predicate, inside check and inside check2, because each comparison is
evaluated only after both dates have been validated; and the body
encoder's asserted record validity holds on the wrap path because wrap
runs check before encoding. -/
theorem C10_assertions_never_fire :
    (∀ cvc, btokCVCInfoSeemsValidA cvc = some (btokCVCInfoSeemsValid cvc)) ∧
    (∀ cvc, btokCVCCheckA cvc = some (btokCVCCheck cvc)) ∧
    (∀ cvc cvca, btokCVCCheck2A cvc cvca = some (btokCVCCheck2 cvc cvca)) ∧
    (∀ withCert cvc priv,
      btokCVCWrapA withCert cvc priv = some (btokCVCWrap withCert cvc priv)) :=
  ⟨btokCVCInfoSeemsValidA_eq, btokCVCCheckA_eq, btokCVCCheck2A_eq,
    btokCVCWrapA_eq⟩

/-- C3: in unwrap, a supplied verification key (length 64, 96 or 128)
fixes the signature length to `pub_len - pub_len/4`; with `pub_len = 0`
the signature octet string is trial-decoded with 48, 72, 96 in that
order and the first length that decodes is taken, none decoding giving
BadFormat; and for a certificate produced by wrap with a private key of
length 32, 48 or 64 the inference mode recovers exactly
`priv_len + priv_len/2`, the value wrap stored. -/
theorem C3_sig_length_inference :
    (∀ cert pub c, (pub.length = 64 ∨ pub.length = 96 ∨ pub.length = 128) →
      btokCVCUnwrap cert pub = .ok c →
      c.sig_len = pub.length - pub.length / 4) ∧
    (∀ cert c, btokCVCUnwrap cert [] = .ok c →
      ∃ content rest0 cvc1 t, derElemDec 0x7F21 cert = some (content, rest0) ∧
        btokCVCBodyDec content = some (cvc1, t) ∧
        specFirstTrial (content.drop t) = some c.sig_len) ∧
    (∀ cvc rest, cvc.WF → btokCVCInfoSeemsValid cvc = true →
      derDec3 0x5F37 48 rest = false → derDec3 0x5F37 72 rest = false →
      derDec3 0x5F37 96 rest = false →
      btokCVCUnwrap (derElemEnc 0x7F21 (btokCVCBodyEnc cvc ++ rest)) [] =
        .err .badFormat) ∧
    (∀ cvc priv, cvc.WF →
      (priv.length = 32 ∨ priv.length = 48 ∨ priv.length = 64) →
      btokCVCCheck cvc = .ok →
      ∃ cvc1 cert n, btokCVCWrap true cvc priv = .ok (cvc1, cert, n) ∧
        btokCVCUnwrap cert [] = .ok cvc1 ∧
        cvc1.sig_len = priv.length + priv.length / 2) := by
  refine ⟨?_, ?_, ?_, ?_⟩
  · intro cert pub c hlen h
    obtain ⟨_, _, _, _, _, _, _, hs, _⟩ :=
      btokCVCUnwrap_ok_inv cert pub c h
    exact hs (by rcases hlen with h | h | h <;> omega)
  · intro cert c h
    obtain ⟨content, rest0, cvc1, t, hE, hB, _, _, hs⟩ :=
      btokCVCUnwrap_ok_inv cert [] c h
    exact ⟨content, rest0, cvc1, t, hE, hB, hs rfl⟩
  · intro cvc rest hWF hinfo h48 h72 h96
    have hbody := btokCVCBodyDec_enc cvc rest hWF hinfo
    simp [btokCVCUnwrap, derElemDec_enc_nil, hbody, List.take_left,
      List.drop_left, h48, h72, h96]
  · intro cvc priv hWF hpl hchk
    refine ⟨{ cvc with
        sig := btokSign (btokCVCBodyEnc cvc) priv,
        sig_len := priv.length + priv.length / 2 },
      derElemEnc 0x7F21 (btokCVCBodyEnc cvc ++
        derTOCTEnc 0x5F37 (btokSign (btokCVCBodyEnc cvc) priv)),
      (derTagEnc 0x7F21).length +
        (derLenEnc ((btokCVCBodyEnc cvc).length +
          ((derTagEnc 0x5F37).length +
           (derLenEnc (priv.length + priv.length / 2)).length +
           (priv.length + priv.length / 2)))).length +
        ((btokCVCBodyEnc cvc).length +
          ((derTagEnc 0x5F37).length +
           (derLenEnc (priv.length + priv.length / 2)).length +
           (priv.length + priv.length / 2))), ?_, ?_, rfl⟩
    · have hs := btokCVCWrap_ok_shape true cvc priv hpl hchk
      simpa using hs
    · exact btokCVCUnwrap_wrap_infer cvc priv hWF hpl hchk

theorem C1_wrap_unwrap_round_trip_witness :
    ∃ cvc1 cert n,
      btokCVCWrap true exCVC exPriv = .ok (cvc1, cert, n) ∧
      btokCVCUnwrap cert (bignCalcPubkey exPriv) = .ok cvc1 ∧
      btokVerify (btokCVCBodyEnc exCVC) cvc1.sig (bignCalcPubkey exPriv) = .ok :=
  C1_wrap_unwrap_round_trip exCVC exPriv (by decide) (by decide) (by decide)

theorem C3_sig_length_inference_witness :
    ∃ cvc1 cert n,
      btokCVCWrap true exCVC exPriv = .ok (cvc1, cert, n) ∧
      btokCVCUnwrap cert [] = .ok cvc1 ∧
      cvc1.sig_len = exPriv.length + exPriv.length / 2 :=
  C3_sig_length_inference.2.2.2 exCVC exPriv (by decide) (by decide) (by decide)

theorem C4_dry_run_length_witness :
    exDryCvc.sig = exCVC.sig ∧
    ∃ cvc2 cert n2, btokCVCWrap true exCVC exPriv = .ok (cvc2, cert, n2) ∧
      n2 = 183 ∧ cert.length = 183 :=
  C4_dry_run_length exCVC exPriv exDryCvc [] 183 (by decide)

theorem C9_dry_run_frame_witness :
    exDryCvc.sig = exCVC.sig ∧
    exDryCvc.sig_len = exPriv.length + exPriv.length / 2 ∧
    (exCVC.pubkey_len = 0 →
      exDryCvc.pubkey = bignCalcPubkey exPriv ∧
      exDryCvc.pubkey_len = 2 * exPriv.length) ∧
    (exCVC.pubkey_len ≠ 0 →
      exDryCvc.pubkey = exCVC.pubkey ∧
      exDryCvc.pubkey_len = exCVC.pubkey_len) ∧
    exDryCvc.authority = exCVC.authority ∧ exDryCvc.holder = exCVC.holder ∧
    exDryCvc.hat_eid = exCVC.hat_eid ∧ exDryCvc.hat_esign = exCVC.hat_esign ∧
    exDryCvc.cfrom = exCVC.cfrom ∧ exDryCvc.cuntil = exCVC.cuntil ∧
    (∃ cvc2 cert n2, btokCVCWrap true exCVC exPriv = .ok (cvc2, cert, n2) ∧
      cvc2 = { exDryCvc with sig := cvc2.sig }) :=
  C9_dry_run_frame exCVC exPriv exDryCvc [] 183 (by decide)

/-- C5: the date validator accepts a 6-octet date exactly when every
octet is a digit, the two-digit year is at least 19, the month is 1..12,
the day 1..31, no day 31 in months 4, 6, 9, 11, and February holds at
most 29 days with 29 allowed only in years divisible by 4; in
particular 20-02-29 and 24-02-29 are valid while 21-02-29 is rejected. -/
theorem C5_date_validator :
    (∀ d0 d1 d2 d3 d4 d5 : Nat,
      (btokCVCDateIsValid [d0, d1, d2, d3, d4, d5] = true ↔
        specDateOk d0 d1 d2 d3 d4 d5)) ∧
    btokCVCDateIsValid [2, 0, 0, 2, 2, 9] = true ∧
    btokCVCDateIsValid [2, 4, 0, 2, 2, 9] = true ∧
    btokCVCDateIsValid [2, 1, 0, 2, 2, 9] = false := by
  refine ⟨?_, by decide, by decide, by decide⟩
  intro d0 d1 d2 d3 d4 d5
  simp [btokCVCDateIsValid, specDateOk]
  omega

/-- C7: the body encoder emits the CertHAT block (tag 0x7F4C with the
eId-access OID and the 5-octet `hat_eid`) exactly when `hat_eid` is not
all-zero, and the CVExt block (tag 0x65 wrapping tag 0x73 with the
eSign-access OID and the 2-octet `hat_esign`) exactly when `hat_esign`
is not all-zero — the encoding equals the spec-schema wire with the
optional blocks present iff the fields are non-zero; and the body
decoder reads each optional block exactly when the next tag is 0x7F4C
respectively 0x65, recovering the transported value, and leaves the
corresponding field all-zero when the block is absent. -/
theorem C7_optional_blocks :
    (∀ cvc, btokCVCBodyEnc cvc = specBodyWire [0] cvc.authority
        (0 :: cvc.pubkey) cvc.holder
        (if memIsZero cvc.hat_eid then none else some cvc.hat_eid)
        cvc.cfrom cvc.cuntil
        (if memIsZero cvc.hat_esign then none else some cvc.hat_esign)) ∧
    (∀ auth pk holder fr un eid es extra,
      8 ≤ auth.length → auth.length ≤ 12 → auth.all charIsPrintable = true →
      8 ≤ holder.length → holder.length ≤ 12 →
      holder.all charIsPrintable = true →
      (pk.length = 64 ∨ pk.length = 96 ∨ pk.length = 128) →
      (∀ e, eid = some e → e.length = 5) →
      (∀ e, es = some e → e.length = 2) →
      fr.length = 6 → un.length = 6 →
      btokCVCBodyDec (specBodyWire [0] auth (0 :: pk) holder eid fr un es
          ++ extra) =
        some ({ authority := auth, holder := holder, pubkey := pk,
                pubkey_len := pk.length,
                hat_eid := eid.getD (List.replicate 5 0),
                hat_esign := es.getD (List.replicate 2 0),
                cfrom := fr, cuntil := un, sig := [], sig_len := 0 },
              (specBodyWire [0] auth (0 :: pk) holder eid fr un es).length)) := by
  refine ⟨btokCVCBodyEnc_spec, ?_⟩
  intro auth pk holder fr un eid es extra hA1 hA2 hA3 hH1 hH2 hH3 hpk heid hes hfr hun
  exact btokCVCBodyDec_spec auth pk holder fr un eid es extra
    hA1 hA2 hA3 hH1 hH2 hH3 hpk heid hes hfr hun

theorem C7_optional_blocks_witness :
    btokCVCBodyDec (specBodyWire [0] exName (0 :: List.replicate 64 7) exName2
        (some [1, 2, 3, 4, 5]) [1, 9, 0, 1, 0, 1] [2, 9, 1, 2, 3, 1] none ++ []) =
      some ({ authority := exName, holder := exName2,
              pubkey := List.replicate 64 7, pubkey_len := (List.replicate 64 7).length,
              hat_eid := (some [1, 2, 3, 4, 5]).getD (List.replicate 5 0),
              hat_esign := (none : Option (List Nat)).getD (List.replicate 2 0),
              cfrom := [1, 9, 0, 1, 0, 1], cuntil := [2, 9, 1, 2, 3, 1],
              sig := [], sig_len := 0 },
            (specBodyWire [0] exName (0 :: List.replicate 64 7) exName2
              (some [1, 2, 3, 4, 5]) [1, 9, 0, 1, 0, 1] [2, 9, 1, 2, 3, 1]
              none).length) :=
  C7_optional_blocks.2 exName (List.replicate 64 7) exName2
    [1, 9, 0, 1, 0, 1] [2, 9, 1, 2, 3, 1] (some [1, 2, 3, 4, 5]) none []
    (by decide) (by decide) (by decide) (by decide) (by decide) (by decide)
    (by decide) (by decide) (by decide) (by decide) (by decide)

theorem natBytesBE_ne_single_zero (v : Nat) (hv : v ≠ 0) :
    natBytesBE v ≠ [0] := by
  intro he
  have h := bytesFromBE_natBytesBE v
  rw [he] at h
  simp [bytesFromBE] at h
  exact hv h.symm

/-- C8: the body decoder fails whenever the version SIZE field (tag
0x5F29) holds a value other than 0, whenever the authority or holder
PrintableString has length outside 8..12, or whenever the public-key
BIT STRING bit length is not 512, 768 or 1024; a failing body decode
makes unwrap return BadFormat; and on success the decoder returns
exactly the number of octets of the body element, so that the signature
can be located after it. -/
theorem C8_body_decoder_rejections :
    (∀ v tail, v ≠ 0 →
      btokCVCBodyDec (derElemEnc 0x7F4E
        (derElemEnc 0x5F29 (natBytesBE v) ++ tail)) = none) ∧
    (∀ a tail, (a.length < 8 ∨ 12 < a.length) →
      btokCVCBodyDec (derElemEnc 0x7F4E
        (derElemEnc 0x5F29 [0] ++ derElemEnc 0x42 a ++ tail)) = none) ∧
    (∀ auth bc tail, 8 ≤ auth.length → auth.length ≤ 12 →
      auth.all charIsPrintable = true →
      (∀ u data, bc = u :: data → u ≤ 7 →
        ¬(8 * data.length - u = 512 ∨ 8 * data.length - u = 768 ∨
          8 * data.length - u = 1024)) →
      btokCVCBodyDec (derElemEnc 0x7F4E
        (derElemEnc 0x5F29 [0] ++ derElemEnc 0x42 auth ++
         derElemEnc 0x7F49 (derOIDEnc oid_bign_pubkey ++ derElemEnc 3 bc) ++
         tail)) = none) ∧
    (∀ auth pk hld tail, 8 ≤ auth.length → auth.length ≤ 12 →
      auth.all charIsPrintable = true →
      (pk.length = 64 ∨ pk.length = 96 ∨ pk.length = 128) →
      (hld.length < 8 ∨ 12 < hld.length) →
      btokCVCBodyDec (derElemEnc 0x7F4E
        (derElemEnc 0x5F29 [0] ++ derElemEnc 0x42 auth ++
         derElemEnc 0x7F49 (derOIDEnc oid_bign_pubkey ++
           derElemEnc 3 (0 :: pk)) ++
         derElemEnc 0x5F20 hld ++ tail)) = none) ∧
    (∀ content pub,
      (pub.length = 0 ∨ pub.length = 64 ∨ pub.length = 96 ∨
        pub.length = 128) →
      btokCVCBodyDec content = none →
      btokCVCUnwrap (derElemEnc 0x7F21 content) pub = .err .badFormat) ∧
    (∀ auth pk holder fr un eid es extra,
      8 ≤ auth.length → auth.length ≤ 12 → auth.all charIsPrintable = true →
      8 ≤ holder.length → holder.length ≤ 12 →
      holder.all charIsPrintable = true →
      (pk.length = 64 ∨ pk.length = 96 ∨ pk.length = 128) →
      (∀ e, eid = some e → e.length = 5) →
      (∀ e, es = some e → e.length = 2) →
      fr.length = 6 → un.length = 6 →
      ∃ c, btokCVCBodyDec (specBodyWire [0] auth (0 :: pk) holder eid fr un es
          ++ extra) =
        some (c, (specBodyWire [0] auth (0 :: pk) holder eid fr un es).length)) := by
  refine ⟨?_, ?_, ?_, ?_, ?_, ?_⟩
  · intro v tail hv
    have hne := natBytesBE_ne_single_zero v hv
    simp [btokCVCBodyDec, btokCVCBodyDecFields, derElemDec_enc, derElemDec_enc_nil, derTSIZEDec2,
      derSIZEContent, hne]
  · intro a tail h
    cases hpr : a.all charIsPrintable <;>
      simp [btokCVCBodyDec, btokCVCBodyDecFields, derElemDec_enc, derElemDec_enc_nil,
        derTSIZEDec2_enc0, derTPSTRDec, hpr, h]
  · intro auth bc tail h1 h2 h3 hbc
    have hAc : ¬(auth.length < 8 ∨ 12 < auth.length) := by omega
    cases bc with
    | nil =>
      simp [btokCVCBodyDec, btokCVCBodyDecFields, derElemDec_enc, derElemDec_enc_nil,
        derTSIZEDec2_enc0, derTPSTRDec_enc, h3, hAc, derOIDDec2_enc,
        derBITDec, derElemDec_enc]
    | cons u data =>
      by_cases hu : u ≤ 7
      · have hb := hbc u data rfl hu
        push_neg at hb
        simp [btokCVCBodyDec, btokCVCBodyDecFields, derElemDec_enc, derElemDec_enc_nil,
          derTSIZEDec2_enc0, derTPSTRDec_enc, h3, hAc, derOIDDec2_enc,
          derBITDec_enc, derBITDec_enc_nil, hu, hb.1, hb.2.1, hb.2.2]
      · simp [btokCVCBodyDec, btokCVCBodyDecFields, derElemDec_enc, derElemDec_enc_nil,
          derTSIZEDec2_enc0, derTPSTRDec_enc, h3, hAc, derOIDDec2_enc,
          derBITDec, derElemDec_enc, hu]
  · intro auth pk hld tail h1 h2 h3 hpk h
    have hAc : ¬(auth.length < 8 ∨ 12 < auth.length) := by omega
    have hblt : 8 * pk.length = 512 ∨ 8 * pk.length = 768 ∨
        8 * pk.length = 1024 := by
      rcases hpk with hh | hh | hh <;> simp [hh]
    cases hpr : hld.all charIsPrintable <;>
      simp [btokCVCBodyDec, btokCVCBodyDecFields, derElemDec_enc, derElemDec_enc_nil,
        derTSIZEDec2_enc0, derTPSTRDec_enc, h3, hAc, derOIDDec2_enc,
        derBITDec_enc, derBITDec_enc_nil, hblt, derTPSTRDec, hpr, h]
  · intro content pub hp hnone
    unfold btokCVCUnwrap
    rw [if_neg (not_not_intro hp)]
    simp [derElemDec_enc_nil, hnone]
  · intro auth pk holder fr un eid es extra hA1 hA2 hA3 hH1 hH2 hH3 hpk heid hes hfr hun
    exact ⟨_, btokCVCBodyDec_spec auth pk holder fr un eid es extra
      hA1 hA2 hA3 hH1 hH2 hH3 hpk heid hes hfr hun⟩

theorem C8_body_decoder_rejections_witness :
    btokCVCBodyDec (derElemEnc 0x7F4E
      (derElemEnc 0x5F29 (natBytesBE 5) ++ [])) = none :=
  C8_body_decoder_rejections.1 5 [] (by decide)

theorem btokCVCNameIsValid_iff (l : List Nat) :
    btokCVCNameIsValid l = true ↔ specNameOk l := by
  simp [btokCVCNameIsValid, specNameOk, List.all_eq_true, and_assoc]

/-- C6 (counterexample to the claim as stated): on a record whose names
and dates all pass, `btokCVCCheck` can return a kind that is neither OK
nor BadPubkey — with `pubkey_len = 50` the public-key validation fails
with BadInput, so its failure does not always surface as BadPubkey. -/
theorem C6_check_errors_counterexample :
    (specNameOk exBadLenCvc.authority ∧ specNameOk exBadLenCvc.holder) ∧
    btokCVCDateIsValid exBadLenCvc.cfrom = true ∧
    btokCVCDateIsValid exBadLenCvc.cuntil = true ∧
    specLexLe exBadLenCvc.cfrom exBadLenCvc.cuntil = true ∧
    btokCVCCheck exBadLenCvc ≠ .ok ∧
    btokCVCCheck exBadLenCvc ≠ .badName ∧
    btokCVCCheck exBadLenCvc ≠ .badDate ∧
    btokCVCCheck exBadLenCvc ≠ .badPubkey := by decide

/-- C6 (amended): check returns BadName exactly when a name fails the
printable/length-8..12 test; otherwise BadDate exactly when a date is
malformed or `from` exceeds `until` lexicographically; otherwise it
returns the result of the public-key validation — which is OK or
BadPubkey when `pubkey_len` is one of 64/96/128 (group membership), and
BadInput when the length itself is invalid.  The first failing check
determines the returned kind. -/
theorem C6_check_errors_amended (cvc : BtokCVC) :
    (btokCVCCheck cvc = .badName ↔
      ¬(specNameOk cvc.authority ∧ specNameOk cvc.holder)) ∧
    ((specNameOk cvc.authority ∧ specNameOk cvc.holder) →
      (btokCVCCheck cvc = .badDate ↔
        ¬(btokCVCDateIsValid cvc.cfrom = true ∧
          btokCVCDateIsValid cvc.cuntil = true ∧
          specLexLe cvc.cfrom cvc.cuntil = true))) ∧
    ((specNameOk cvc.authority ∧ specNameOk cvc.holder) →
      btokCVCDateIsValid cvc.cfrom = true →
      btokCVCDateIsValid cvc.cuntil = true →
      specLexLe cvc.cfrom cvc.cuntil = true →
      btokCVCCheck cvc = btokPubkeyVal cvc.pubkey cvc.pubkey_len ∧
      ((cvc.pubkey_len = 64 ∨ cvc.pubkey_len = 96 ∨ cvc.pubkey_len = 128) →
        btokCVCCheck cvc = .ok ∨ btokCVCCheck cvc = .badPubkey) ∧
      (¬(cvc.pubkey_len = 64 ∨ cvc.pubkey_len = 96 ∨ cvc.pubkey_len = 128) →
        btokCVCCheck cvc = .badInput)) := by
  have hnm : (btokCVCNameIsValid cvc.authority &&
      btokCVCNameIsValid cvc.holder) = true ↔
      (specNameOk cvc.authority ∧ specNameOk cvc.holder) := by
    simp [Bool.and_eq_true, btokCVCNameIsValid_iff]
  have hdl := btokCVCDateLeq_iff_specLexLe cvc.cfrom cvc.cuntil
  by_cases hn : (btokCVCNameIsValid cvc.authority &&
      btokCVCNameIsValid cvc.holder) = true <;>
  by_cases hd : (btokCVCDateIsValid cvc.cfrom && btokCVCDateIsValid cvc.cuntil &&
      btokCVCDateLeq cvc.cfrom cvc.cuntil) = true <;>
  by_cases hl : cvc.pubkey_len = 64 ∨ cvc.pubkey_len = 96 ∨
      cvc.pubkey_len = 128 <;>
  by_cases hv : (cvc.pubkey.take cvc.pubkey_len).take
        ((cvc.pubkey.take cvc.pubkey_len).length / 2) =
      (cvc.pubkey.take cvc.pubkey_len).drop
        ((cvc.pubkey.take cvc.pubkey_len).length / 2) <;>
    simp_all [btokCVCCheck, btokPubkeyVal, bignValPubkey, Bool.and_eq_true,
      btokCVCNameIsValid_iff] <;>
    tauto

theorem C6_check_errors_amended_witness :
    btokCVCCheck exBadLenCvc =
      btokPubkeyVal exBadLenCvc.pubkey exBadLenCvc.pubkey_len :=
  ((C6_check_errors_amended exBadLenCvc).2.2 (by decide) (by decide) (by decide)
    (by decide)).1

/-- C2 (amended): issue succeeds iff (a) the parent certificate unwraps
OK without a verifier key, (b) the parent private key has a valid length
and derives exactly the parent certificate's public key, (c) the child's
authority equals the parent's holder, (d) the parent's `from` is at most
the child's `from`, which is at most the parent's `until` (byte-wise
lexicographically), and — the amendment — (e) the child record itself
passes `btokCVCCheck`. -/
theorem C2_issue_iff_amended (withCert : Bool) (cvc : BtokCVC)
    (certa privkeya : List Nat) :
    (∃ out, btokCVCIss withCert cvc certa privkeya = .ok out) ↔
    (∃ cvca, btokCVCUnwrap certa [] = .ok cvca ∧
      (privkeya.length = 32 ∨ privkeya.length = 48 ∨ privkeya.length = 64) ∧
      cvca.pubkey_len = 2 * privkeya.length ∧
      bignCalcPubkey privkeya = cvca.pubkey.take cvca.pubkey_len ∧
      cvc.authority = cvca.holder ∧
      specLexLe cvca.cfrom cvc.cfrom = true ∧
      specLexLe cvc.cfrom cvca.cuntil = true ∧
      btokCVCCheck cvc = .ok) := by
  constructor
  · rintro ⟨out, h⟩
    unfold btokCVCIss at h
    split at h
    · exact absurd h (by simp)
    · rename_i cvca hU
      split at h
      · rename_i hkv
        split at h
        · rename_i hc2
          obtain ⟨hpl, hl2, hcalc⟩ :=
            btokKeypairVal_ok_inv privkeya cvca.pubkey cvca.pubkey_len hkv
          obtain ⟨hchk, hauth, _, _, hle1, hle2⟩ :=
            btokCVCCheck2_ok_inv cvc cvca hc2
          exact ⟨cvca, hU, hpl, hl2, hcalc, hauth,
            (btokCVCDateLeq_iff_specLexLe _ _).mp hle1,
            (btokCVCDateLeq_iff_specLexLe _ _).mp hle2, hchk⟩
        · rename_i hcon
          exact absurd h (by simp)
      · rename_i hcon
        exact absurd h (by simp)
  · rintro ⟨cvca, hU, hpl, hl2, hcalc, hauth, hle1, hle2, hchk⟩
    have hkv : btokKeypairVal privkeya cvca.pubkey cvca.pubkey_len = .ok := by
      unfold btokKeypairVal
      rw [if_neg (not_not_intro hpl), if_neg (not_ne_iff.mpr hl2),
        if_pos hcalc]
    obtain ⟨_, _, _, _, _, _, hcok, _, _⟩ :=
      btokCVCUnwrap_ok_inv certa [] cvca hU
    obtain ⟨_, _, hdf, hdu, _, _, _⟩ := btokCVCCheck_ok_parts cvca hcok
    have hc2 : btokCVCCheck2 cvc cvca = .ok := by
      unfold btokCVCCheck2
      rw [hchk]
      rw [if_neg (not_ne_iff.mpr hauth)]
      rw [if_neg (not_not_intro (by
        simp only [Bool.and_eq_true]
        exact ⟨⟨⟨hdf, hdu⟩, (btokCVCDateLeq_iff_specLexLe _ _).mpr hle1⟩,
          (btokCVCDateLeq_iff_specLexLe _ _).mpr hle2⟩))]
    have hwrap := btokCVCWrap_ok_shape withCert cvc privkeya hpl hchk
    have hiss : btokCVCIss withCert cvc certa privkeya =
        btokCVCWrap withCert cvc privkeya := by
      unfold btokCVCIss
      rw [hU]
      simp only [hkv, hc2]
    exact ⟨_, hiss.trans hwrap⟩

/-- C2 (counterexample to the claim as stated): for the concrete parent
certificate `exCertA` with issuer key `exPriv` and the child
`exChildBad`, all four conditions (a) parent unwraps OK, (b) derived key
matches the parent's pubkey, (c) child's authority equals parent's
holder, (d) parent.from ≤ child.from ≤ parent.until hold, yet issue
fails (with BadName, because the child record itself is invalid), so
"issue succeeds iff (a)-(d)" is false. -/
theorem C2_issue_iff_counterexample :
    btokCVCUnwrap exCertA [] = .ok exParentDec ∧
    (exPriv.length = 32 ∨ exPriv.length = 48 ∨ exPriv.length = 64) ∧
    exParentDec.pubkey_len = 2 * exPriv.length ∧
    bignCalcPubkey exPriv = exParentDec.pubkey.take exParentDec.pubkey_len ∧
    exChildBad.authority = exParentDec.holder ∧
    specLexLe exParentDec.cfrom exChildBad.cfrom = true ∧
    specLexLe exChildBad.cfrom exParentDec.cuntil = true ∧
    btokCVCIss true exChildBad exCertA exPriv = .err .badName := by decide
